import Mathlib

/-!
# MVD_13_UBO rendering core: culling, AABB transforms and the draw-order sorter

A shallow embedding of `src/src/GraphicsSystem.cpp` and `src/src/GraphicsUtilities.h`.

Conventions of the embedding:

* C++ `float` is modelled by `ℚ` with exact arithmetic; every concrete input used
  below is a small dyadic or integer value, which `float` represents exactly.
* C++ `int` is modelled by `Int`; the one place where a wider value is narrowed,
  the cast `(int)i` of a `size_t` loop index, is modelled by `castInt` (reduction
  modulo `2^32` into the signed range).
* `std::vector` is modelled by `List`, `std::map<int,int>` by an association list
  whose most recent binding wins.
* `std::sort` is not part of the repository: it is a parameter (`StdSort`) constrained by
  the postcondition the C++ standard gives it.
* A piece of the frame ends in an `Outcome`: `done`, or `undefined` when it reaches a
  vector index out of range or a null `shader_`; the collaborators declared outside the
  sources (`Collaborators`) are parameters.
-/

namespace lm

/-- Three floats, as `lm::vec3`. -/
structure vec3 where
  x : ℚ
  y : ℚ
  z : ℚ
deriving DecidableEq

/-- Four floats, as `lm::vec4`. -/
structure vec4 where
  x : ℚ
  y : ℚ
  z : ℚ
  w : ℚ
deriving DecidableEq

/-- Sixteen floats `m[0] .. m[15]` in column-major order, as `lm::mat4`
(`renderEnvironment_` zeroes the translation through `m[12]`, `m[13]`, `m[14]`). -/
structure mat4 where
  m0 : ℚ
  m1 : ℚ
  m2 : ℚ
  m3 : ℚ
  m4 : ℚ
  m5 : ℚ
  m6 : ℚ
  m7 : ℚ
  m8 : ℚ
  m9 : ℚ
  m10 : ℚ
  m11 : ℚ
  m12 : ℚ
  m13 : ℚ
  m14 : ℚ
  m15 : ℚ
deriving DecidableEq

/-- Modelled from the spec: the header of the `lm` maths library is not among the sources.
`mat4 * vec4` is the column-major matrix-vector product ("transforms each into clip space"). -/
def mat4.mulVec4 (a : mat4) (v : vec4) : vec4 :=
  { x := a.m0 * v.x + a.m4 * v.y + a.m8 * v.z + a.m12 * v.w
    y := a.m1 * v.x + a.m5 * v.y + a.m9 * v.z + a.m13 * v.w
    z := a.m2 * v.x + a.m6 * v.y + a.m10 * v.z + a.m14 * v.w
    w := a.m3 * v.x + a.m7 * v.y + a.m11 * v.z + a.m15 * v.w }

/-- Modelled from the spec: the header of the `lm` maths library is not among the sources.
`mat4 * vec3` transforms the point `(x, y, z, 1)` and keeps the first three coordinates
("transforms the 8 corners of the local box by `matrix`"). -/
def mat4.mulVec3 (a : mat4) (v : vec3) : vec3 :=
  { x := a.m0 * v.x + a.m4 * v.y + a.m8 * v.z + a.m12
    y := a.m1 * v.x + a.m5 * v.y + a.m9 * v.z + a.m13
    z := a.m2 * v.x + a.m6 * v.y + a.m10 * v.z + a.m14 }

/-- The identity matrix. -/
def mat4.identity : mat4 :=
  ⟨1, 0, 0, 0, 0, 1, 0, 0, 0, 0, 1, 0, 0, 0, 0, 1⟩

end lm

/-- Axis-aligned bounding box, `struct AABB` of `GraphicsUtilities.h`. -/
structure AABB where
  center : lm.vec3
  half_width : lm.vec3
deriving DecidableEq

/-- Shading parameters of one material, `struct Material` of `GraphicsUtilities.h`.
`index` is the scratch field written by `sortMeshes_`. -/
structure Material where
  name : String
  index : Int
  shader_id : Int
  ambient : lm.vec3
  diffuse : lm.vec3
  specular : lm.vec3
  specular_gloss : ℚ
  diffuse_map : Int
  cube_map : Int
deriving DecidableEq

/-- Modelled from the spec: the declaration of the Mesh component (`Components.h`) is not
among the sources. A draw item "references one geometry index and one material index" and
is "owned by the entity it is attached to (`owner`)"; `index` is the scratch field that
`sortMeshes_` writes (`meshes[i].index = (int)i`). -/
structure Mesh where
  owner : Int
  index : Int
  geometry : Int
  material : Int
deriving DecidableEq

/-- Modelled from the spec: the declaration of `Entity` (the entity-component store) is not
among the sources. An entity "owns a fixed-size table mapping each component kind to an
index into that kind's dense array, or none"; the table is `components`, indexed by the
number of the component kind. -/
structure Entity where
  name : String
  components : Nat → Int

/-- Mesh asset, `struct Geometry` of `GraphicsUtilities.h`: the vertex array object, the
triangle count and the bounding box. -/
structure Geometry where
  vao : Nat
  num_tris : Nat
  aabb : AABB
deriving DecidableEq

/-- Modelled from the spec: `Shader.h` is not among the sources. A compiled shader program,
"addressed by handle"; `program` is the OpenGL program id the code reads through
`shader_->program`. -/
structure Shader where
  program : Nat
deriving DecidableEq

/-- Modelled from the spec: the declaration of the Camera component (`Components.h`) is not
among the sources: "position, forward vector, and derived view/projection/view-projection
matrices". -/
structure Camera where
  position : lm.vec3
  forward : lm.vec3
  view_matrix : lm.mat4
  projection_matrix : lm.mat4
  view_projection : lm.mat4
deriving DecidableEq

/-- The argument of `glCullFace`. -/
inductive Face where
  | front
  | back
deriving DecidableEq

/-- The calls the frame makes on the OpenGL context, recorded in order. One run of
`setMaterialUniforms` is recorded as the single entry `materialUniforms`, and
`Geometry::render` as `render`. -/
inductive GLCall where
  | viewport (x y width height : Int)
  | bindFramebuffer (framebuffer : Nat)
  | clearColor (color : lm.vec4)
  | clear
  | useProgram (program : Nat)
  | activeTexture (unit : Nat)
  | bindTextureCube (texture : Nat)
  | depthMask (flag : Bool)
  | cullFace (mode : Face)
  | uniformMat4 (slot : String) (value : lm.mat4)
  | uniformVec3 (slot : String) (value : lm.vec3)
  | materialUniforms (material : Int)
  | render (geom : Geometry)
deriving DecidableEq

/-- Everything a frame reads and writes: the globals of the entity-component store `ECS`,
the data members of `GraphicsSystem`, the state of the OpenGL context with the record of
the calls made on it, and the lines printed on the console. -/
structure World where
  cameras : List Camera
  main_camera : Int
  meshes : List Mesh
  materials_ : List Material
  geometries_ : List Geometry
  shaders_ : List (Nat × Option Shader)
  shader_ : Option Shader
  current_material_ : Int
  environment_program_ : Nat
  environment_tex_ : Nat
  cube_map_geom_ : Int
  viewport_width_ : Int
  viewport_height_ : Int
  screen_background_color : lm.vec4
  gl_program : Nat
  gl_depthMask : Bool
  gl_cullFace : Face
  calls : List GLCall
  out : List String

/-- How a piece of the frame ends: `done` with the state it leaves, or `undefined` when it
reaches an access the language leaves undefined (a vector index out of range, a null
`shader_` dereferenced), with the state reached at that point. -/
inductive Outcome where
  | done (w : World)
  | undefined (w : World)

/-- The collaborators of the frame that are declared outside the sources. -/
structure Collaborators where
  cameraUpdate : Camera → Camera
  globalMatrix : Int → lm.mat4
  inverse : lm.mat4 → lm.mat4
  controlUpdate : World → World
  collisionUpdate : World → World
  scriptUpdate : World → World
  guiUpdate : World → World
  debugUpdate : World → World

namespace GraphicsSystem

/-! ## View-frustum culling (`BBInFrustum_`) -/

/-- The array `points[8]` of `BBInFrustum_`: the eight corners of the box in the order
`---, --+, -+-, -++, +--, +-+, ++-, +++`, each with `w = 1`. -/
def points (aabb : AABB) : List lm.vec4 :=
  [ ⟨aabb.center.x - aabb.half_width.x, aabb.center.y - aabb.half_width.y,
      aabb.center.z - aabb.half_width.z, 1⟩,
    ⟨aabb.center.x - aabb.half_width.x, aabb.center.y - aabb.half_width.y,
      aabb.center.z + aabb.half_width.z, 1⟩,
    ⟨aabb.center.x - aabb.half_width.x, aabb.center.y + aabb.half_width.y,
      aabb.center.z - aabb.half_width.z, 1⟩,
    ⟨aabb.center.x - aabb.half_width.x, aabb.center.y + aabb.half_width.y,
      aabb.center.z + aabb.half_width.z, 1⟩,
    ⟨aabb.center.x + aabb.half_width.x, aabb.center.y - aabb.half_width.y,
      aabb.center.z - aabb.half_width.z, 1⟩,
    ⟨aabb.center.x + aabb.half_width.x, aabb.center.y - aabb.half_width.y,
      aabb.center.z + aabb.half_width.z, 1⟩,
    ⟨aabb.center.x + aabb.half_width.x, aabb.center.y + aabb.half_width.y,
      aabb.center.z - aabb.half_width.z, 1⟩,
    ⟨aabb.center.x + aabb.half_width.x, aabb.center.y + aabb.half_width.y,
      aabb.center.z + aabb.half_width.z, 1⟩ ]

/-- The array `clip_points[8]`: every corner multiplied by the matrix. -/
def clip_points (aabb : AABB) (mvp : lm.mat4) : List lm.vec4 :=
  (points aabb).map mvp.mulVec4

/-- One counting loop of `BBInFrustum_`:
`in = 0; for (i = 0; i < 8; i++) if (test(clip_points[i])) in++;`. -/
def countIn (test : lm.vec4 → Bool) (cps : List lm.vec4) : Nat :=
  cps.foldl (fun n p => if test p then n + 1 else n) 0

/-- The function `GraphicsSystem::BBInFrustum_` (GraphicsSystem.cpp 599-679). The six loops are kept in
the order and with the comparisons of the source; the fifth one (commented `near plane`)
compares `-clip_points[i].z < clip_points[i].z`. -/
def BBInFrustum_ (aabb : AABB) (mvp : lm.mat4) : Bool :=
  let cps := clip_points aabb mvp
  -- left plane
  if countIn (fun p => decide (-p.w < p.x)) cps = 0 then false
  -- right plane
  else if countIn (fun p => decide (p.x < p.w)) cps = 0 then false
  -- bottom plane
  else if countIn (fun p => decide (-p.w < p.y)) cps = 0 then false
  -- top plane
  else if countIn (fun p => decide (p.y < p.w)) cps = 0 then false
  -- near plane
  else if countIn (fun p => decide (-p.z < p.z)) cps = 0 then false
  -- far plane
  else if countIn (fun p => decide (p.z < p.w)) cps = 0 then false
  else true

/-- The six plane tests as the comment at the head of `BBInFrustum_` and the spec state
them: a clip-space point is inside iff `-w < x < w`, `-w < y < w` and `-w < z < w`. -/
def insideAllPlanes (p : lm.vec4) : Prop :=
  -p.w < p.x ∧ p.x < p.w ∧ -p.w < p.y ∧ p.y < p.w ∧ -p.w < p.z ∧ p.z < p.w

/-- A perspective projection with a 90 degree field of view, aspect 1, near 1 and far 3:
`z_clip = -2 z - 3`, `w_clip = -z`. -/
def perspective90 : lm.mat4 :=
  ⟨1, 0, 0, 0, 0, 1, 0, 0, 0, 0, -2, -1, 0, 0, -3, 0⟩

/-- A small box in front of the camera, between view depth 9/8 and 11/8. -/
def nearHalfBox : AABB :=
  ⟨⟨0, 0, -5 / 4⟩, ⟨1 / 8, 1 / 8, 1 / 8⟩⟩

/-- The box with corners `(±1, ±1, ±1)`. -/
def unitBox : AABB :=
  ⟨⟨0, 0, 0⟩, ⟨1, 1, 1⟩⟩

/-! ## AABB transformation (`transformAABB_`) -/

/-- One iteration of the min/max loop shared by `setGeometryAABB_` and `transformAABB_`:
`if (x < min.x) min.x = x; ... if (x > max.x) max.x = x; ...`. -/
def minMaxStep (acc : lm.vec3 × lm.vec3) (v : lm.vec3) : lm.vec3 × lm.vec3 :=
  let min := acc.1
  let max := acc.2
  let min : lm.vec3 := if v.x < min.x then { min with x := v.x } else min
  let min : lm.vec3 := if v.y < min.y then { min with y := v.y } else min
  let min : lm.vec3 := if v.z < min.z then { min with z := v.z } else min
  let max : lm.vec3 := if v.x > max.x then { max with x := v.x } else max
  let max : lm.vec3 := if v.y > max.y then { max with y := v.y } else max
  let max : lm.vec3 := if v.z > max.z then { max with z := v.z } else max
  (min, max)

/-- The constant `big = 1000000.0f`. -/
def big : ℚ := 1000000

/-- The constant `small = -1000000.0f`. -/
def small : ℚ := -1000000

/-- The tail of both AABB builders: centre and half width from `min` and `max`. -/
def aabbOfMinMax (mm : lm.vec3 × lm.vec3) : AABB :=
  let min := mm.1
  let max := mm.2
  let center : lm.vec3 := ⟨(min.x + max.x) / 2, (min.y + max.y) / 2, (min.z + max.z) / 2⟩
  { center := center
    half_width := ⟨max.x - center.x, max.y - center.y, max.z - center.z⟩ }

/-- The function `GraphicsSystem::transformAABB_` (GraphicsSystem.cpp 480-531): the min and the max
corner are transformed, the array `vertices[6]` holds these two points, and the loop
`for (i = 0; i < 6; i += 3)` folds the min/max step over them. -/
def transformAABB_ (aabb : AABB) (transform : lm.mat4) : AABB :=
  let aabb_min : lm.vec3 :=
    ⟨aabb.center.x - aabb.half_width.x, aabb.center.y - aabb.half_width.y,
      aabb.center.z - aabb.half_width.z⟩
  let aabb_max : lm.vec3 :=
    ⟨aabb.center.x + aabb.half_width.x, aabb.center.y + aabb.half_width.y,
      aabb.center.z + aabb.half_width.z⟩
  let min_t := transform.mulVec3 aabb_min
  let max_t := transform.mulVec3 aabb_max
  let vertices := [min_t, max_t]
  let min : lm.vec3 := ⟨big, big, big⟩
  let max : lm.vec3 := ⟨small, small, small⟩
  aabbOfMinMax (vertices.foldl minMaxStep (min, max))

/-- The eight corners of a box as points of space. -/
def corners (aabb : AABB) : List lm.vec3 :=
  (points aabb).map (fun p => ⟨p.x, p.y, p.z⟩)

/-- A rotation by 45 degrees about the z axis combined with a uniform scale by the square
root of two: `(x, y, z) ↦ (x - y, x + y, z)`. -/
def rotScale45 : lm.mat4 :=
  ⟨1, 1, 0, 0, -1, 1, 0, 0, 0, 0, 1, 0, 0, 0, 0, 1⟩

/-- Modelled from the spec: the value of an empty slot of `Entity.components` ("none") is
declared outside the sources; it is `-1`, the invalid handle used throughout the
repository (`createGeometryFromFile` returns `-1`, `Material::index`, `diffuse_map` and
`cube_map` default to `-1`, `current_material_` is reset to `-1`). -/
def noComponent : Int := -1

/-- The storage `sortMeshes_` reads and writes: `GraphicsSystem::materials_`,
`ECS.getAllComponents<Mesh>()` and `ECS.entities`. -/
structure Scene where
  materials_ : List Material
  meshes : List Mesh
  entities : List Entity

/-- The cast `(int)i` of a `size_t` index to a 32-bit `int`. -/
def castInt (i : Nat) : Int :=
  let r : Int := (i : Int) % 4294967296
  if r < 2147483648 then r else r - 4294967296

/-- Contents of a `std::map<int,int>`; the first binding of a key is the current one. -/
abbrev IntMap := List (Int × Int)

/-- The statement `old_new[k] = v;`. -/
def IntMap.assign (m : IntMap) (k v : Int) : IntMap :=
  (k, v) :: m

/-- The expression `old_new[k]` read as a value: `std::map::operator[]` returns the mapped
value, and for a key that is absent it first inserts the key with the value `0`. The
result is the value together with the map after the access. -/
def IntMap.subscript (m : IntMap) (k : Int) : Int × IntMap :=
  match m.lookup k with
  | some v => (v, m)
  | none => (0, (k, 0) :: m)

/-- The loop `for (i = ...; i < v.size(); i++) v[i].index = (int)i;` from position `i` on. -/
def storeIndex {α : Type} (setIndex : α → Int → α) (i : Nat) : List α → List α
  | [] => []
  | x :: xs => setIndex x (castInt i) :: storeIndex setIndex (i + 1) xs

/-- The loop `for (i = ...; i < v.size(); i++) old_new[v[i].index] = (int)i;`
from position `i` on. -/
def fillMap {α : Type} (index : α → Int) (i : Nat) (old_new : IntMap) : List α → IntMap
  | [] => old_new
  | x :: xs => fillMap index (i + 1) (old_new.assign (index x) (castInt i)) xs

/-- The loop `for (auto& x : v) { old = x.f; new = old_new[old]; x.f = new; }`, which
threads the map through the accesses. -/
def remap {α : Type} (get : α → Int) (set : α → Int → α) (old_new : IntMap) :
    List α → List α × IntMap
  | [] => ([], old_new)
  | x :: xs =>
    let old_index := get x
    let r := old_new.subscript old_index
    let rest := remap get set r.2 xs
    (set x r.1 :: rest.1, rest.2)

/-- A candidate for `std::sort(first, last, comp)` on a vector. -/
structure StdSort where
  sort : {α : Type} → (α → α → Bool) → List α → List α

/-- The requirement the C++ standard puts on the comparison object of `std::sort`:
a strict weak ordering. -/
def StrictWeakOrder {α : Type} (comp : α → α → Bool) : Prop :=
  (∀ a, comp a a = false) ∧
  (∀ a b c, comp a b = true → comp b c = true → comp a c = true) ∧
  (∀ a b c, comp a b = false → comp b a = false → comp b c = false → comp c b = false →
    comp a c = false ∧ comp c a = false)

/-- The postcondition the C++ standard gives `std::sort`: the range holds the same elements
and is sorted with respect to `comp`, that is `comp(v[j], v[i])` is false for `i < j`.
Nothing is promised about the order of equivalent elements. -/
def StdSort.Lawful (S : StdSort) : Prop :=
  ∀ {α : Type} (comp : α → α → Bool), StrictWeakOrder comp → ∀ l : List α,
    (S.sort comp l).Perm l ∧ (S.sort comp l).Pairwise (fun a b => comp b a = false)

/-- Straight insertion, inserting every element in front of the first one that is not
smaller: a sort that keeps equivalent elements in their original order. -/
def insertionStdSort : StdSort :=
  ⟨fun comp l => l.insertionSort (fun a b => comp b a = false)⟩

/-- Straight insertion run over the reversed input: a sort that leaves equivalent elements
in reverse order. -/
def reversingStdSort : StdSort :=
  ⟨fun comp l => l.reverse.insertionSort (fun a b => comp b a = false)⟩

/-- The assignment `m.index = k`. -/
def Material.setIndex (m : Material) (k : Int) : Material :=
  { m with index := k }

/-- The assignment `mesh.index = k`. -/
def Mesh.setIndex (mesh : Mesh) (k : Int) : Mesh :=
  { mesh with index := k }

/-- The assignment `mesh.material = k`. -/
def Mesh.setMaterial (mesh : Mesh) (k : Int) : Mesh :=
  { mesh with material := k }

/-- The read `ent.components[type2int<Mesh>::result]`. -/
def Entity.meshSlot (meshType : Nat) (ent : Entity) : Int :=
  ent.components meshType

/-- The assignment `ent.components[type2int<Mesh>::result] = k`. -/
def Entity.setMeshSlot (meshType : Nat) (ent : Entity) (k : Int) : Entity :=
  { ent with components := Function.update ent.components meshType k }

/-- The function `GraphicsSystem::sortMeshes_` (GraphicsSystem.cpp 275-323). `S` stands for `std::sort`
and `meshType` for the constant `type2int<Mesh>::result`, both declared outside the
sources. -/
def sortMeshes_ (S : StdSort) (meshType : Nat) (scene : Scene) : Scene :=
  -- first we store the old index of each material in materials_ array
  let materials_ := storeIndex Material.setIndex 0 scene.materials_
  -- second, we sort materials by shader_id
  let materials_ := S.sort (fun a b => decide (a.shader_id < b.shader_id)) materials_
  -- now we map old indices to new indices
  let old_new := fillMap Material.index 0 [] materials_
  -- now we swap index of materials in all meshes
  let meshes := (remap Mesh.material Mesh.setMaterial old_new scene.meshes).1
  -- store old mesh indices
  let meshes := storeIndex Mesh.setIndex 0 meshes
  -- sort meshes by material id
  let meshes := S.sort (fun a b => decide (a.material < b.material)) meshes
  -- clear map and refill with mesh index map
  let old_new := fillMap Mesh.index 0 [] meshes
  -- update all entities with new mesh id
  let entities :=
    (remap (Entity.meshSlot meshType) (Entity.setMeshSlot meshType) old_new scene.entities).1
  { materials_ := materials_, meshes := meshes, entities := entities }

/-- Everything a material holds except the scratch field `index`. -/
def Material.params (m : Material) :
    String × Int × lm.vec3 × lm.vec3 × lm.vec3 × ℚ × Int × Int :=
  (m.name, m.shader_id, m.ambient, m.diffuse, m.specular, m.specular_gloss,
    m.diffuse_map, m.cube_map)

/-- The element `v[k]` for an `int` index `k`, when `k` is a position of `v`. -/
def getAt {α : Type} (v : List α) (k : Int) : Option α :=
  if 0 ≤ k then v[k.toNat]? else none

/-- A material as the constructor `Material()` leaves it, with the given name and shader. -/
def mkMaterial (name : String) (shader_id : Int) : Material :=
  { name := name, index := -1, shader_id := shader_id, ambient := ⟨1 / 10, 1 / 10, 1 / 10⟩,
    diffuse := ⟨1, 1, 1⟩, specular := ⟨1, 1, 1⟩, specular_gloss := 80,
    diffuse_map := -1, cube_map := -1 }

/-- An entity whose only component is the draw item `mesh` (or none). -/
def mkEntity (meshType : Nat) (name : String) (mesh : Int) : Entity :=
  { name := name, components := fun k => if k = meshType then mesh else noComponent }

/-- The scenario of the spec: three materials with shaders 5, 2, 2 and four draw items,
owned by four entities, that use the materials 0, 1, 2, 0. The component kind of `Mesh`
is taken to be 1. -/
def scenario : Scene :=
  { materials_ := [mkMaterial "a" 5, mkMaterial "b" 2, mkMaterial "c" 2]
    meshes := [⟨0, -1, 10, 0⟩, ⟨1, -1, 11, 1⟩, ⟨2, -1, 12, 2⟩, ⟨3, -1, 13, 0⟩]
    entities := [mkEntity 1 "e0" 0, mkEntity 1 "e1" 1, mkEntity 1 "e2" 2, mkEntity 1 "e3" 3] }

/-- A scene whose only draw item refers to material 7 although the material table has a
single entry. -/
def danglingScene : Scene :=
  { materials_ := [mkMaterial "only" 4]
    meshes := [⟨0, -1, 0, 7⟩]
    entities := [mkEntity 1 "e0" 0] }

/-- The scene `Game::init` builds: the camera entity, the sphere and the floor (each with a
draw item and a material of its own shader), and three light entities. Only the sphere and
the floor have a draw item. The component kind of `Mesh` is taken to be 1 and the two
shader programs to have the ids 3 and 6. -/
def gameScene : Scene :=
  { materials_ := [mkMaterial "" 3, mkMaterial "" 6]
    meshes := [⟨1, -1, 0, 0⟩, ⟨2, -1, 1, 1⟩]
    entities := [mkEntity 1 "PlayerFree" noComponent, mkEntity 1 "sphere" 0,
      mkEntity 1 "floor" 1, mkEntity 1 "light 1" noComponent,
      mkEntity 1 "light 2" noComponent, mkEntity 1 "light 3" noComponent] }

/-! ## Geometry bounding boxes (`setGeometryAABB_`) -/

/-- A geometry as the constructor `Geometry()` leaves it (`vao = 0`, `num_tris = 0`), with
an all-zero box. -/
def defaultGeometry : Geometry :=
  ⟨0, 0, ⟨⟨0, 0, 0⟩, ⟨0, 0, 0⟩⟩⟩

/-! ## Geometry creation (`createGeometryFromFile`) -/

/-- An exception that leaves `createGeometryFromFile`. -/
inductive Thrown where
  | out_of_range
deriving DecidableEq

/-- The difference `a - b` of two `size_t` values (64-bit unsigned): when `a < b` it wraps
around to `2^64 - (b - a)`. -/
def sizeSub (a b : Nat) : Nat :=
  if b ≤ a then a - b else 18446744073709551616 - (b - a)

/-- The call `s.substr(pos, len)` of `std::string`: it throws `std::out_of_range` when
`pos > s.size()`, and otherwise returns at most `len` characters from `pos` on. A character
of the model stands for one `char` of the C++ string. -/
def substr (s : String) (pos len : Nat) : Except Thrown String :=
  if pos > s.length then .error .out_of_range
  else .ok ⟨(s.data.drop pos).take len⟩

/-- The four vectors `Parsers::parseOBJ` fills. -/
structure MeshData where
  vertices : List ℚ
  uvs : List ℚ
  normals : List ℚ
  indices : List Nat

/-- The part of `GraphicsSystem` that `createGeometryFromFile` touches: the geometry store
and the lines written to `std::cerr`. -/
structure GeometryStore where
  geometries_ : List Geometry
  cerr : List String

/-- The function `GraphicsSystem::createGeometryFromFile` (GraphicsSystem.cpp 416-443).
`parseOBJ` stands for `Parsers::parseOBJ` (`none` when it returns false) and `newGeometry`
for the constructor `Geometry(vertices, uvs, normals, indices)`, both declared outside the
sources. The result is the returned handle with the store after the call, or the exception
that leaves the function. -/
def createGeometryFromFile (parseOBJ : String → Option MeshData)
    (newGeometry : MeshData → Geometry) (store : GeometryStore) (filename : String) :
    Except Thrown (Int × GeometryStore) :=
  match substr filename (sizeSub filename.length 4) 4 with
  | .error e => .error e
  | .ok ext =>
    if ext = ".obj" ∨ ext = ".OBJ" then
      match parseOBJ filename with
      | some data =>
        let new_geom := newGeometry data
        let geometries_ := store.geometries_ ++ [new_geom]
        .ok (castInt geometries_.length - 1, { store with geometries_ := geometries_ })
      | none =>
        .ok (-1, { store with cerr := store.cerr ++ ["ERROR: Could not parse mesh file"] })
    else
      .ok (-1, { store with
        cerr := store.cerr ++ ["ERROR: Unsupported mesh format when creating geometry"] })

/-! ## The frame (`update`, `checkShaderAndMaterial`, `renderEnvironment_`) -/

/-- Modelled from the spec: the header of the `lm` maths library is not among the sources.
`mat4 * mat4` is the product of two column-major matrices. -/
def mulMat4 (a b : lm.mat4) : lm.mat4 :=
  { m0 := a.m0 * b.m0 + a.m4 * b.m1 + a.m8 * b.m2 + a.m12 * b.m3
    m1 := a.m1 * b.m0 + a.m5 * b.m1 + a.m9 * b.m2 + a.m13 * b.m3
    m2 := a.m2 * b.m0 + a.m6 * b.m1 + a.m10 * b.m2 + a.m14 * b.m3
    m3 := a.m3 * b.m0 + a.m7 * b.m1 + a.m11 * b.m2 + a.m15 * b.m3
    m4 := a.m0 * b.m4 + a.m4 * b.m5 + a.m8 * b.m6 + a.m12 * b.m7
    m5 := a.m1 * b.m4 + a.m5 * b.m5 + a.m9 * b.m6 + a.m13 * b.m7
    m6 := a.m2 * b.m4 + a.m6 * b.m5 + a.m10 * b.m6 + a.m14 * b.m7
    m7 := a.m3 * b.m4 + a.m7 * b.m5 + a.m11 * b.m6 + a.m15 * b.m7
    m8 := a.m0 * b.m8 + a.m4 * b.m9 + a.m8 * b.m10 + a.m12 * b.m11
    m9 := a.m1 * b.m8 + a.m5 * b.m9 + a.m9 * b.m10 + a.m13 * b.m11
    m10 := a.m2 * b.m8 + a.m6 * b.m9 + a.m10 * b.m10 + a.m14 * b.m11
    m11 := a.m3 * b.m8 + a.m7 * b.m9 + a.m11 * b.m10 + a.m15 * b.m11
    m12 := a.m0 * b.m12 + a.m4 * b.m13 + a.m8 * b.m14 + a.m12 * b.m15
    m13 := a.m1 * b.m12 + a.m5 * b.m13 + a.m9 * b.m14 + a.m13 * b.m15
    m14 := a.m2 * b.m12 + a.m6 * b.m13 + a.m10 * b.m14 + a.m14 * b.m15
    m15 := a.m3 * b.m12 + a.m7 * b.m13 + a.m11 * b.m14 + a.m15 * b.m15 }

/-- Modelled from the spec: the header of the `lm` maths library is not among the sources.
`mat4::transpose` swaps rows and columns. -/
def transposeMat4 (a : lm.mat4) : lm.mat4 :=
  ⟨a.m0, a.m4, a.m8, a.m12, a.m1, a.m5, a.m9, a.m13, a.m2, a.m6, a.m10, a.m14,
    a.m3, a.m7, a.m11, a.m15⟩

/-- The conversion of an `int` to `GLuint` (32-bit unsigned), as it happens when a
material's `shader_id` is compared with `shader_->program` or passed to `useShader`. -/
def toGLuint (x : Int) : Nat :=
  (x % 4294967296).toNat

/-- Sequencing: the next piece runs on the state a finished piece leaves. -/
def andThen (o : Outcome) (f : World → Outcome) : Outcome :=
  match o with
  | .done w => f w
  | .undefined w => .undefined w

/-- One call on the OpenGL context: it is recorded, and `glUseProgram`, `glDepthMask` and
`glCullFace` change the state they set. -/
def glCall (w : World) (c : GLCall) : World :=
  let w := { w with calls := w.calls ++ [c] }
  match c with
  | .useProgram p => { w with gl_program := p }
  | .depthMask flag => { w with gl_depthMask := flag }
  | .cullFace mode => { w with gl_cullFace := mode }
  | _ => w

/-- The expression `shaders_[p]` read as a value: the registered pointer, or a null pointer
that `operator[]` inserts for a key that is absent. -/
def shaderSubscript (shaders_ : List (Nat × Option Shader)) (p : Nat) :
    Option Shader × List (Nat × Option Shader) :=
  match shaders_.lookup p with
  | some s => (s, shaders_)
  | none => (none, (p, none) :: shaders_)

/-- The condition `!shader_ || shader_->program != p`. -/
def needsShader (shader_ : Option Shader) (p : Nat) : Bool :=
  match shader_ with
  | none => true
  | some s => s.program != p

/-- The function `GraphicsSystem::useShader(GLuint p)` (GraphicsSystem.cpp 361-370). -/
def useShader (w : World) (p : Nat) : World :=
  if p = 0 then
    { glCall w (.useProgram 0) with shader_ := none }
  else if needsShader w.shader_ p then
    let w := glCall w (.useProgram p)
    let r := shaderSubscript w.shaders_ p
    { w with shader_ := r.1, shaders_ := r.2 }
  else w

/-- The function `GraphicsSystem::resetShaderAndMaterial_` (GraphicsSystem.cpp 326-330). -/
def resetShaderAndMaterial_ (w : World) : World :=
  { useShader w 0 with current_material_ := -1 }

/-- The function `GraphicsSystem::setMaterialUniforms` (GraphicsSystem.cpp 149-268), as far
as the frame is concerned: it reads `materials_[current_material_]` and `shader_->program`
and uploads the uniforms of that material. -/
def setMaterialUniforms (w : World) : Outcome :=
  match getAt w.materials_ w.current_material_, w.shader_ with
  | some _, some _ => .done (glCall w (.materialUniforms w.current_material_))
  | _, _ => .undefined w

/-- The function `GraphicsSystem::checkShaderAndMaterial` (GraphicsSystem.cpp 136-146). -/
def checkShaderAndMaterial (w : World) (mesh : Mesh) : Outcome :=
  match getAt w.materials_ mesh.material with
  | none => .undefined w
  | some mat =>
    let w :=
      if needsShader w.shader_ (toGLuint mat.shader_id) then
        useShader w (toGLuint mat.shader_id)
      else w
    if w.current_material_ ≠ mesh.material then
      setMaterialUniforms { w with current_material_ := mesh.material }
    else .done w

/-- The function `GraphicsSystem::bindAndClearScreen_` (GraphicsSystem.cpp 339-344). -/
def bindAndClearScreen_ (w : World) : World :=
  let w := glCall w (.viewport 0 0 w.viewport_width_ w.viewport_height_)
  let w := glCall w (.bindFramebuffer 0)
  let w := glCall w (.clearColor w.screen_background_color)
  glCall w .clear

/-- The function `GraphicsSystem::updateAllCameras_` (GraphicsSystem.cpp 333-337). -/
def updateAllCameras_ (ext : Collaborators) (w : World) : World :=
  { w with cameras := w.cameras.map ext.cameraUpdate }

/-- The function `GraphicsSystem::renderMeshComponent_` (GraphicsSystem.cpp 59-92). -/
def renderMeshComponent_ (ext : Collaborators) (w : World) (comp : Mesh) : Outcome :=
  andThen (checkShaderAndMaterial w comp) fun w =>
    match getAt w.cameras w.main_camera, getAt w.geometries_ comp.geometry with
    | some cam, some geom =>
      let model_matrix := ext.globalMatrix comp.owner
      let mvp_matrix := mulMat4 cam.view_projection model_matrix
      if !BBInFrustum_ geom.aabb mvp_matrix then .done w
      else
        let normal_matrix := transposeMat4 (ext.inverse model_matrix)
        match w.shader_ with
        | none => .undefined w
        | some _ =>
          let w := glCall w (.uniformMat4 "U_MVP" mvp_matrix)
          let w := glCall w (.uniformMat4 "U_MODEL" model_matrix)
          let w := glCall w (.uniformMat4 "U_NORMAL_MATRIX" normal_matrix)
          let w := glCall w (.uniformVec3 "U_CAM_POS" cam.position)
          .done (glCall w (.render geom))
    | _, _ => .undefined w

/-- The function `GraphicsSystem::setEnvironment` (GraphicsSystem.cpp 373-383). -/
def setEnvironment (w : World) (tex_id : Nat) (geom_id : Int) (program : Nat) : World :=
  { w with cube_map_geom_ := geom_id, environment_tex_ := tex_id,
           environment_program_ := program }

/-- The function `GraphicsSystem::renderEnvironment_` (GraphicsSystem.cpp 95-131). -/
def renderEnvironment_ (w : World) : Outcome :=
  if w.environment_program_ = 0 ∨ w.environment_tex_ = 0 ∨ w.cube_map_geom_ < 0 then .done w
  else
    let w := useShader w w.environment_program_
    match getAt w.cameras w.main_camera with
    | none => .undefined w
    | some cam =>
      let view_matrix : lm.mat4 := { cam.view_matrix with m12 := 0, m13 := 0, m14 := 0, m15 := 1 }
      let vp_matrix := mulMat4 cam.projection_matrix view_matrix
      match w.shader_ with
      | none => .undefined w
      | some _ =>
        let w := glCall w (.uniformMat4 "U_VP" vp_matrix)
        let w := glCall w (.activeTexture 0)
        let w := glCall w (.bindTextureCube w.environment_tex_)
        let w := glCall w (.depthMask false)
        let w := glCall w (.cullFace .front)
        match getAt w.geometries_ w.cube_map_geom_ with
        | none => .undefined w
        | some geom =>
          let w := glCall w (.render geom)
          let w := glCall w (.depthMask true)
          .done (glCall w (.cullFace .back))

/-- The loop `for (auto &mesh : ECS.getAllComponents<Mesh>()) renderMeshComponent_(mesh);`. -/
def renderAllMeshes (ext : Collaborators) (w : World) (meshes : List Mesh) : Outcome :=
  meshes.foldl (fun o mesh => andThen o fun w => renderMeshComponent_ ext w mesh) (.done w)

/-- The function `GraphicsSystem::update` (GraphicsSystem.cpp 42-56). -/
def update (ext : Collaborators) (w : World) : Outcome :=
  let w := bindAndClearScreen_ w
  let w := resetShaderAndMaterial_ w
  let w := updateAllCameras_ ext w
  andThen (renderAllMeshes ext w w.meshes) renderEnvironment_

/-- The pass the frame makes over the draw items as far as shader and material binding is
concerned: `resetShaderAndMaterial_` followed by `checkShaderAndMaterial` on each draw item
in array order. -/
def bindingPass (w : World) (meshes : List Mesh) : Outcome :=
  meshes.foldl (fun o mesh => andThen o fun w => checkShaderAndMaterial w mesh)
    (.done (resetShaderAndMaterial_ w))

/-- The function `Game::update` (Game.cpp 105-127). -/
def gameUpdate (ext : Collaborators) (w : World) : Outcome :=
  if w.cameras.length = 0 then
    .done { w with out := w.out ++ ["There is no camera set!"] }
  else
    let w := ext.controlUpdate w
    let w := ext.collisionUpdate w
    let w := ext.scriptUpdate w
    andThen (update ext w) fun w =>
      let w := ext.guiUpdate w
      .done (ext.debugUpdate w)

/-- Collaborators that leave everything as it is. -/
def idleCollaborators : Collaborators :=
  { cameraUpdate := id, globalMatrix := fun _ => lm.mat4.identity, inverse := id,
    controlUpdate := id, collisionUpdate := id, scriptUpdate := id, guiUpdate := id,
    debugUpdate := id }

/-- A camera at the origin whose matrices are all the identity. -/
def identityCamera : Camera :=
  ⟨⟨0, 0, 0⟩, ⟨0, 0, -1⟩, lm.mat4.identity, lm.mat4.identity, lm.mat4.identity⟩

/-- A world with one camera, one geometry, one material and one draw item, the shader
program 3 registered, nothing bound, depth writes on and back faces culled, and no
environment configured. -/
def smallWorld : World :=
  { cameras := [identityCamera], main_camera := 0, meshes := [⟨0, 0, 0, 0⟩],
    materials_ := [mkMaterial "m" 3], geometries_ := [defaultGeometry],
    shaders_ := [(3, some ⟨3⟩)], shader_ := none, current_material_ := -1,
    environment_program_ := 0, environment_tex_ := 0, cube_map_geom_ := -1,
    viewport_width_ := 800, viewport_height_ := 600, screen_background_color := ⟨1, 1, 1, 1⟩,
    gl_program := 0, gl_depthMask := true, gl_cullFace := .back, calls := [], out := [] }

/-- The world `smallWorld` without its camera. -/
def noCameraWorld : World :=
  { smallWorld with cameras := [] }

/-! ## Sorting twice -/

/-- The entries of a sequence that differ from their predecessor; `prev` is what precedes
the first one, if anything. -/
def changes : Option Int → List Int → List Int
  | _, [] => []
  | prev, x :: xs => (if prev = some x then [] else [x]) ++ changes (some x) xs

/-- The shader id a draw item asks for: `materials_[mesh.material].shader_id`. -/
def shaderOf (materials_ : List Material) (mesh : Mesh) : Int :=
  ((getAt materials_ mesh.material).map Material.shader_id).getD 0

/-- The calls a pass over draw items with the (shader id, material index) pairs `items`
makes when it binds a shader only where the shader id differs from the previous one and
uploads material uniforms only where the material index differs from the previous one.
`prevShader` is the shader id bound before the pass (none when no shader is bound) and
`prevMaterial` the value of `current_material_` before the pass. -/
def bindCalls : Option Int → Int → List (Int × Int) → List GLCall
  | _, _, [] => []
  | prevShader, prevMaterial, (s, k) :: rest =>
    (if prevShader = some s then [] else [GLCall.useProgram (toGLuint s)]) ++
      (if prevMaterial = k then [] else [GLCall.materialUniforms k]) ++
      bindCalls (some s) k rest

/-- The world of the spec's scenario after the sort: the sorted material table, the sorted
draw items, the shader programs 2 and 5 registered, nothing bound. -/
def scenarioWorld : World :=
  { smallWorld with
    materials_ := (sortMeshes_ insertionStdSort 1 scenario).materials_
    meshes := (sortMeshes_ insertionStdSort 1 scenario).meshes
    shaders_ := [(2, some ⟨2⟩), (5, some ⟨5⟩)] }

/-! # Theorems -/

/-! ## View-frustum culling -/

/-- Claim C1, violated by the code: the box `nearHalfBox` lies inside the frustum of
`perspective90` (each of its 8 clip-space corners passes all six plane tests
`-w < x`, `x < w`, `-w < y`, `y < w`, `-w < z`, `z < w`), and `BBInFrustum_` returns
false for it. -/
theorem BBInFrustum_culls_box_inside_frustum :
    (∀ p ∈ clip_points nearHalfBox perspective90, insideAllPlanes p) ∧
    BBInFrustum_ nearHalfBox perspective90 = false := by
  constructor
  · norm_num [insideAllPlanes, clip_points, points, nearHalfBox, perspective90,
      lm.mat4.mulVec4]
  · norm_num [BBInFrustum_, countIn, clip_points, points, nearHalfBox, perspective90,
      lm.mat4.mulVec4]

theorem mem_of_getElem?_eq_some {α : Type} {l : List α} {i : Nat} {a : α}
    (h : l[i]? = some a) : a ∈ l := by
  obtain ⟨hb, he⟩ := List.getElem?_eq_some.mp h
  exact he ▸ List.getElem_mem hb

theorem castInt_of_lt {i : Nat} (h : i < 2147483648) : castInt i = (i : Int) := by
  unfold castInt
  have h1 : ((i : Int) % 4294967296) = (i : Int) := by omega
  simp only [h1]
  rw [if_pos (by omega)]

theorem length_storeIndex {α : Type} (setIndex : α → Int → α) (i : Nat) (l : List α) :
    (storeIndex setIndex i l).length = l.length := by
  induction l generalizing i with
  | nil => rfl
  | cons x xs ih => simp [storeIndex, ih]

theorem getElem?_storeIndex {α : Type} (setIndex : α → Int → α) (i : Nat) (l : List α)
    (j : Nat) :
    (storeIndex setIndex i l)[j]? = (l[j]?).map (fun x => setIndex x (castInt (i + j))) := by
  induction l generalizing i j with
  | nil => simp [storeIndex]
  | cons x xs ih =>
    cases j with
    | zero => simp [storeIndex]
    | succ j =>
      simp only [storeIndex, List.getElem?_cons_succ, ih]
      have : i + 1 + j = i + (j + 1) := by omega
      rw [this]

theorem map_index_storeIndex {α : Type} (index : α → Int) (setIndex : α → Int → α)
    (hset : ∀ x k, index (setIndex x k) = k) (i : Nat) (l : List α) :
    (storeIndex setIndex i l).map index = (List.range' i l.length).map castInt := by
  induction l generalizing i with
  | nil => rfl
  | cons x xs ih => simp [storeIndex, hset, ih, List.range'_succ]

theorem nodup_index_storeIndex {α : Type} (index : α → Int) (setIndex : α → Int → α)
    (hset : ∀ x k, index (setIndex x k) = k) (l : List α) (hlen : l.length ≤ 2147483648) :
    ((storeIndex setIndex 0 l).map index).Nodup := by
  rw [map_index_storeIndex index setIndex hset]
  refine List.Nodup.map_on ?_ (List.nodup_range' 0 l.length)
  intro a ha b hb hab
  rw [List.mem_range'_1] at ha hb
  rw [castInt_of_lt (by omega), castInt_of_lt (by omega)] at hab
  exact_mod_cast hab

/-- Reading the map built by `fillMap`: a key that is stored by the loop is bound to the
position at which it is stored, every other key keeps its earlier binding. -/
theorem lookup_fillMap {α : Type} (index : α → Int) (l : List α) :
    ∀ (i : Nat) (m : IntMap), (l.map index).Nodup →
      (∀ (j : Nat) (hj : j < l.length),
        (fillMap index i m l).lookup (index l[j]) = some (castInt (i + j))) ∧
      (∀ k : Int, k ∉ l.map index → (fillMap index i m l).lookup k = m.lookup k) := by
  induction l with
  | nil =>
    intro i m _
    exact ⟨fun j hj => absurd hj (by simp), fun k _ => rfl⟩
  | cons x xs ih =>
    intro i m hnd
    rw [List.map_cons, List.nodup_cons] at hnd
    obtain ⟨h1, h2⟩ := ih (i + 1) (m.assign (index x) (castInt i)) hnd.2
    constructor
    · intro j hj
      cases j with
      | zero =>
        simp only [fillMap, List.getElem_cons_zero, Nat.add_zero]
        rw [h2 _ hnd.1]
        simp [IntMap.assign, List.lookup_cons]
      | succ j =>
        simp only [fillMap, List.getElem_cons_succ]
        have := h1 j (by simpa using hj)
        rw [this]
        congr 2
        omega
    · intro k hk
      simp only [List.map_cons, List.mem_cons, not_or] at hk
      simp only [fillMap]
      rw [h2 k hk.2]
      simp only [IntMap.assign, List.lookup_cons]
      have : (k == index x) = false := by simpa using hk.1
      rw [this]

/-- The value of `old_new[k]`: the binding of `k`, or `0` when there is none. -/
theorem subscript_fst (m : IntMap) (k : Int) :
    (m.subscript k).1 = (m.lookup k).getD 0 := by
  unfold IntMap.subscript
  cases m.lookup k <;> rfl

/-- Inserting a default entry does not change what any later subscript returns. -/
theorem subscript_snd_lookup (m : IntMap) (k k' : Int) :
    (((m.subscript k).2).lookup k').getD 0 = (m.lookup k').getD 0 := by
  unfold IntMap.subscript
  cases h : m.lookup k with
  | some v => rfl
  | none =>
    simp only [List.lookup_cons]
    by_cases hk : k' = k
    · subst hk
      simp [h]
    · have : (k' == k) = false := by simpa using hk
      rw [this]

/-- The remapping loop rewrites every element through the map as it was before the loop. -/
theorem remap_fst {α : Type} (get : α → Int) (set : α → Int → α) (m : IntMap) (l : List α) :
    ∀ m' : IntMap, (∀ k, (m'.lookup k).getD 0 = (m.lookup k).getD 0) →
      (remap get set m' l).1 = l.map (fun x => set x ((m.lookup (get x)).getD 0)) := by
  induction l with
  | nil => intro m' _; rfl
  | cons x xs ih =>
    intro m' hm'
    simp only [remap, List.map_cons]
    rw [subscript_fst, hm', ih]
    intro k
    rw [subscript_snd_lookup, hm']

/-- The old-index to new-index map of one sorting pass. `l` is the table before the pass and
`s` any rearrangement of the table with stored indices: every old position `i` is bound to
the position `p` at which element `i` now stands, and no other key is bound. -/
theorem oldNew_spec {α : Type} (index : α → Int) (setIndex : α → Int → α)
    (hset : ∀ x k, index (setIndex x k) = k) (l s : List α)
    (hperm : s.Perm (storeIndex setIndex 0 l)) (hlen : l.length ≤ 2147483648) :
    (∀ (i : Nat) (hi : i < l.length), ∃ p : Nat, p < l.length ∧
        (fillMap index 0 [] s).lookup (i : Int) = some (p : Int) ∧
        s[p]? = some (setIndex l[i] (i : Int))) ∧
    (∀ k : Int, (k < 0 ∨ (l.length : Int) ≤ k) → (fillMap index 0 [] s).lookup k = none) := by
  have hnd : (s.map index).Nodup :=
    ((hperm.map index).nodup_iff).mpr (nodup_index_storeIndex index setIndex hset l hlen)
  have hslen : s.length = l.length := by
    rw [hperm.length_eq, length_storeIndex]
  obtain ⟨h1, h2⟩ := lookup_fillMap index s 0 [] hnd
  constructor
  · intro i hi
    have hst : (storeIndex setIndex 0 l)[i]? = some (setIndex l[i] (i : Int)) := by
      rw [getElem?_storeIndex, List.getElem?_eq_getElem hi]
      simp only [Option.map_some', Nat.zero_add]
      rw [castInt_of_lt (by omega)]
    have hmem : setIndex l[i] (i : Int) ∈ s :=
      hperm.mem_iff.mpr (mem_of_getElem?_eq_some hst)
    obtain ⟨p, hp, hsp⟩ := List.getElem_of_mem hmem
    refine ⟨p, by omega, ?_, ?_⟩
    · have := h1 p hp
      rw [hsp, hset, Nat.zero_add, castInt_of_lt (by omega)] at this
      exact this
    · rw [List.getElem?_eq_getElem hp, hsp]
  · intro k hk
    have hnot : k ∉ s.map index := by
      intro hmem
      have hmem' : k ∈ (storeIndex setIndex 0 l).map index := (hperm.map index).mem_iff.mp hmem
      rw [map_index_storeIndex index setIndex hset, List.mem_map] at hmem'
      obtain ⟨j, hj, hjk⟩ := hmem'
      rw [List.mem_range'_1] at hj
      rw [castInt_of_lt (by omega)] at hjk
      omega
    rw [h2 k hnot]
    rfl

/-- A comparison `key a < key b` on an integer key is a strict weak ordering. -/
theorem strictWeakOrder_key {α : Type} (key : α → Int) :
    StrictWeakOrder (fun a b : α => decide (key a < key b)) := by
  refine ⟨?_, ?_, ?_⟩
  · intro a
    simp
  · intro a b c hab hbc
    simp only [decide_eq_true_eq] at hab hbc ⊢
    omega
  · intro a b c h1 h2 h3 h4
    simp only [decide_eq_false_iff_not, not_lt] at h1 h2 h3 h4 ⊢
    omega

theorem StrictWeakOrder.total {α : Type} {comp : α → α → Bool} (h : StrictWeakOrder comp)
    (a b : α) : comp b a = false ∨ comp a b = false := by
  by_contra hc
  simp only [not_or, Bool.not_eq_false] at hc
  have := h.2.1 a b a hc.2 hc.1
  rw [h.1 a] at this
  exact Bool.false_ne_true this

theorem StrictWeakOrder.trans_not {α : Type} {comp : α → α → Bool} (h : StrictWeakOrder comp)
    (a b c : α) (hab : comp b a = false) (hbc : comp c b = false) : comp c a = false := by
  by_contra hc
  simp only [Bool.not_eq_false] at hc
  cases h1 : comp a b with
  | true =>
    have := h.2.1 c a b hc h1
    rw [hbc] at this
    exact Bool.false_ne_true this
  | false =>
    cases h2 : comp b c with
    | true =>
      have := h.2.1 b c a h2 hc
      rw [hab] at this
      exact Bool.false_ne_true this
    | false =>
      have := (h.2.2 a b c h1 hab h2 hbc).2
      rw [hc] at this
      exact Bool.false_ne_true this.symm

theorem sorted_insertionSort_comp {α : Type} {comp : α → α → Bool} (h : StrictWeakOrder comp)
    (l : List α) :
    (l.insertionSort (fun a b => comp b a = false)).Pairwise (fun a b => comp b a = false) := by
  haveI : IsTotal α (fun a b => comp b a = false) := ⟨fun a b => h.total a b⟩
  haveI : IsTrans α (fun a b => comp b a = false) := ⟨fun a b c => h.trans_not a b c⟩
  exact List.sorted_insertionSort (fun a b => comp b a = false) l

/-- Straight insertion meets the postcondition of `std::sort`. -/
theorem insertionStdSort_lawful : insertionStdSort.Lawful := by
  intro α comp h l
  exact ⟨List.perm_insertionSort _ l, sorted_insertionSort_comp h l⟩

theorem getAt_natCast {α : Type} (v : List α) (p : Nat) : getAt v (p : Int) = v[p]? := by
  simp [getAt]

theorem getAt_eq_some {α : Type} {v : List α} {k : Int} {a : α} (h : getAt v k = some a) :
    ∃ i : Nat, k = (i : Int) ∧ i < v.length ∧ v[i]? = some a := by
  unfold getAt at h
  split at h
  · rename_i hk
    refine ⟨k.toNat, (Int.toNat_of_nonneg hk).symm, ?_, h⟩
    exact (List.getElem?_eq_some.mp h).1
  · exact absurd h (by simp)

theorem mem_storeIndex {α : Type} (setIndex : α → Int → α) (l : List α) :
    ∀ (i : Nat) (y : α), y ∈ storeIndex setIndex i l → ∃ x ∈ l, ∃ k, y = setIndex x k := by
  induction l with
  | nil => intro i y hy; simp [storeIndex] at hy
  | cons x xs ih =>
    intro i y hy
    simp only [storeIndex, List.mem_cons] at hy
    rcases hy with rfl | hy
    · exact ⟨x, List.mem_cons_self _ _, _, rfl⟩
    · obtain ⟨x', hx', k, hk⟩ := ih (i + 1) y hy
      exact ⟨x', List.mem_cons_of_mem _ hx', k, hk⟩

/-- The material table after the sort. -/
theorem materials_sortMeshes_ (S : StdSort) (meshType : Nat) (scene : Scene) :
    (sortMeshes_ S meshType scene).materials_ =
      S.sort (fun a b => decide (a.shader_id < b.shader_id))
        (storeIndex Material.setIndex 0 scene.materials_) := rfl

/-- The draw-item table after the sort. -/
theorem meshes_sortMeshes_ (S : StdSort) (meshType : Nat) (scene : Scene) :
    (sortMeshes_ S meshType scene).meshes =
      S.sort (fun a b => decide (a.material < b.material))
        (storeIndex Mesh.setIndex 0
          (scene.meshes.map (fun x => Mesh.setMaterial x
            (((fillMap Material.index 0 []
              (sortMeshes_ S meshType scene).materials_).lookup x.material).getD 0)))) := by
  simp only [sortMeshes_]
  rw [remap_fst Mesh.material Mesh.setMaterial _ _ _ (fun _ => rfl)]

/-- The entity table after the sort. -/
theorem entities_sortMeshes_ (S : StdSort) (meshType : Nat) (scene : Scene) :
    (sortMeshes_ S meshType scene).entities =
      scene.entities.map (fun ent => Entity.setMeshSlot meshType ent
        (((fillMap Mesh.index 0 []
          (sortMeshes_ S meshType scene).meshes).lookup (Entity.meshSlot meshType ent)).getD 0)) := by
  simp only [sortMeshes_]
  rw [remap_fst (Entity.meshSlot meshType) (Entity.setMeshSlot meshType) _ _ _ (fun _ => rfl)]

theorem materials_perm (S : StdSort) (hS : S.Lawful) (meshType : Nat) (scene : Scene) :
    (sortMeshes_ S meshType scene).materials_.Perm
      (storeIndex Material.setIndex 0 scene.materials_) :=
  (hS _ (strictWeakOrder_key Material.shader_id) _).1

theorem materials_pairwise (S : StdSort) (hS : S.Lawful) (meshType : Nat) (scene : Scene) :
    (sortMeshes_ S meshType scene).materials_.Pairwise
      (fun a b => a.shader_id ≤ b.shader_id) := by
  have h := (hS _ (strictWeakOrder_key Material.shader_id)
    (storeIndex Material.setIndex 0 scene.materials_)).2
  rw [materials_sortMeshes_]
  refine h.imp ?_
  intro a b hab
  simpa using hab

theorem meshes_pairwise (S : StdSort) (hS : S.Lawful) (meshType : Nat) (scene : Scene) :
    (sortMeshes_ S meshType scene).meshes.Pairwise (fun a b => a.material ≤ b.material) := by
  rw [meshes_sortMeshes_]
  refine ((hS _ (strictWeakOrder_key Mesh.material) _).2).imp ?_
  intro a b hab
  simpa using hab

theorem pairwise_getElem? {α : Type} {R : α → α → Prop} {l : List α} (h : l.Pairwise R)
    {i j : Nat} {a b : α} (hij : i < j) (ha : l[i]? = some a) (hb : l[j]? = some b) : R a b := by
  obtain ⟨hi, rfl⟩ := List.getElem?_eq_some.mp ha
  obtain ⟨hj, rfl⟩ := List.getElem?_eq_some.mp hb
  exact List.pairwise_iff_getElem.mp h i j hi hj hij

/-- The old-index to new-index map of the material pass. -/
theorem material_oldNew (S : StdSort) (hS : S.Lawful) (meshType : Nat) (scene : Scene)
    (hlen : scene.materials_.length ≤ 2147483648) :
    (∀ (i : Nat) (hi : i < scene.materials_.length), ∃ p : Nat, p < scene.materials_.length ∧
        (fillMap Material.index 0 [] (sortMeshes_ S meshType scene).materials_).lookup (i : Int)
          = some (p : Int) ∧
        (sortMeshes_ S meshType scene).materials_[p]?
          = some (Material.setIndex scene.materials_[i] (i : Int))) ∧
    (∀ k : Int, (k < 0 ∨ (scene.materials_.length : Int) ≤ k) →
        (fillMap Material.index 0 [] (sortMeshes_ S meshType scene).materials_).lookup k = none) :=
  oldNew_spec Material.index Material.setIndex (fun _ _ => rfl) scene.materials_ _
    (materials_perm S hS meshType scene) hlen

theorem map_storeIndex_of_invariant {α β : Type} (f : α → β) (setIndex : α → Int → α)
    (hf : ∀ x k, f (setIndex x k) = f x) (l : List α) :
    ∀ i : Nat, (storeIndex setIndex i l).map f = l.map f := by
  induction l with
  | nil => intro i; rfl
  | cons x xs ih => intro i; simp [storeIndex, hf, ih]

/-- Every draw item of the sorted table stems from a draw item of the old table: it keeps
the geometry and the owner, and its material index is the old one sent through the map. -/
theorem mem_meshes_sortMeshes_ (S : StdSort) (hS : S.Lawful) (meshType : Nat) (scene : Scene)
    (a : Mesh) (ha : a ∈ (sortMeshes_ S meshType scene).meshes) :
    ∃ x ∈ scene.meshes, a.geometry = x.geometry ∧ a.owner = x.owner ∧
      a.material = ((fillMap Material.index 0 []
        (sortMeshes_ S meshType scene).materials_).lookup x.material).getD 0 := by
  rw [meshes_sortMeshes_] at ha
  have ha' := ((hS _ (strictWeakOrder_key Mesh.material) _).1).mem_iff.mp ha
  obtain ⟨y, hy, k, rfl⟩ := mem_storeIndex Mesh.setIndex _ 0 a ha'
  obtain ⟨x, hx, rfl⟩ := List.mem_map.mp hy
  exact ⟨x, hx, rfl, rfl, rfl⟩

/-- With valid material indices before the sort, every draw item of the sorted table points
at a position of the sorted material table. -/
theorem mesh_material_valid (S : StdSort) (hS : S.Lawful) (meshType : Nat) (scene : Scene)
    (hlen : scene.materials_.length ≤ 2147483648)
    (hvalid : ∀ mesh ∈ scene.meshes,
      0 ≤ mesh.material ∧ mesh.material < (scene.materials_.length : Int))
    (a : Mesh) (ha : a ∈ (sortMeshes_ S meshType scene).meshes) :
    ∃ (p : Nat) (ma : Material), a.material = (p : Int) ∧
      (sortMeshes_ S meshType scene).materials_[p]? = some ma := by
  obtain ⟨x, hx, -, -, hmat⟩ := mem_meshes_sortMeshes_ S hS meshType scene a ha
  obtain ⟨h0, hn⟩ := hvalid x hx
  obtain ⟨i, hki⟩ := Int.eq_ofNat_of_zero_le h0
  have hi : i < scene.materials_.length := by omega
  obtain ⟨p, -, hlook, hp⟩ := (material_oldNew S hS meshType scene hlen).1 i hi
  refine ⟨p, _, ?_, hp⟩
  rw [hmat, hki, hlook]
  rfl

/-- Claim C3: after `sortMeshes_` the material table is in ascending shader order (for all
positions `i < j`, the shader id at `i` is at most the one at `j`) and is a permutation of
the old table, the scratch field `index` apart; a table with the shaders 5, 2, 2 ends up
with the shaders 2, 2, 5. -/
theorem sortMeshes_materials_ascending (S : StdSort) (hS : S.Lawful) (meshType : Nat)
    (scene : Scene) :
    (∀ (i j : Nat) (a b : Material), i < j →
      (sortMeshes_ S meshType scene).materials_[i]? = some a →
      (sortMeshes_ S meshType scene).materials_[j]? = some b →
      a.shader_id ≤ b.shader_id) ∧
    ((sortMeshes_ S meshType scene).materials_.map Material.params).Perm
      (scene.materials_.map Material.params) ∧
    (scene.materials_.map Material.shader_id = [5, 2, 2] →
      (sortMeshes_ S meshType scene).materials_.map Material.shader_id = [2, 2, 5]) := by
  have hpw := materials_pairwise S hS meshType scene
  have hperm := materials_perm S hS meshType scene
  refine ⟨?_, ?_, ?_⟩
  · intro i j a b hij ha hb
    exact pairwise_getElem? hpw hij ha hb
  · have h := hperm.map Material.params
    rwa [map_storeIndex_of_invariant Material.params Material.setIndex (fun _ _ => rfl)] at h
  · intro h522
    have h := hperm.map Material.shader_id
    rw [map_storeIndex_of_invariant Material.shader_id Material.setIndex (fun _ _ => rfl),
      h522] at h
    have hs : ((sortMeshes_ S meshType scene).materials_.map Material.shader_id).Sorted
        (· ≤ ·) := List.pairwise_map.mpr hpw
    have h225 : ([2, 2, 5] : List Int).Sorted (· ≤ ·) := by decide
    have hp : ([5, 2, 2] : List Int).Perm [2, 2, 5] := by decide
    exact List.eq_of_perm_of_sorted (h.trans hp) hs h225

/-- Claim C3, on the scenario of the spec with straight insertion as the sort. -/
theorem sortMeshes_materials_ascending_witness :
    insertionStdSort.Lawful ∧
    (∀ (i j : Nat) (a b : Material), i < j →
      (sortMeshes_ insertionStdSort 1 scenario).materials_[i]? = some a →
      (sortMeshes_ insertionStdSort 1 scenario).materials_[j]? = some b →
      a.shader_id ≤ b.shader_id) ∧
    ((sortMeshes_ insertionStdSort 1 scenario).materials_.map Material.params).Perm
      (scenario.materials_.map Material.params) ∧
    (scenario.materials_.map Material.shader_id = [5, 2, 2] →
      (sortMeshes_ insertionStdSort 1 scenario).materials_.map Material.shader_id = [2, 2, 5]) :=
  ⟨insertionStdSort_lawful,
    sortMeshes_materials_ascending insertionStdSort insertionStdSort_lawful 1 scenario⟩

/-- Claim C4: after `sortMeshes_`, when every draw item's material index was a position of
the material table beforehand, the draw-item table is in ascending order of the remapped
material index, so the items are in non-decreasing order of their material's shader id and
the items that use one material are contiguous. -/
theorem sortMeshes_meshes_ascending (S : StdSort) (hS : S.Lawful) (meshType : Nat)
    (scene : Scene) (hlen : scene.materials_.length ≤ 2147483648)
    (hvalid : ∀ mesh ∈ scene.meshes,
      0 ≤ mesh.material ∧ mesh.material < (scene.materials_.length : Int)) :
    (∀ (i j : Nat) (a b : Mesh), i < j →
      (sortMeshes_ S meshType scene).meshes[i]? = some a →
      (sortMeshes_ S meshType scene).meshes[j]? = some b →
      a.material ≤ b.material ∧
      ∃ ma mb : Material,
        getAt (sortMeshes_ S meshType scene).materials_ a.material = some ma ∧
        getAt (sortMeshes_ S meshType scene).materials_ b.material = some mb ∧
        ma.shader_id ≤ mb.shader_id) ∧
    (∀ (i j k : Nat) (a b c : Mesh), i < j → j < k →
      (sortMeshes_ S meshType scene).meshes[i]? = some a →
      (sortMeshes_ S meshType scene).meshes[j]? = some b →
      (sortMeshes_ S meshType scene).meshes[k]? = some c →
      a.material = c.material → b.material = a.material) := by
  have hpw := meshes_pairwise S hS meshType scene
  constructor
  · intro i j a b hij ha hb
    have hab : a.material ≤ b.material := pairwise_getElem? hpw hij ha hb
    refine ⟨hab, ?_⟩
    obtain ⟨pa, ma, hpa, hma⟩ := mesh_material_valid S hS meshType scene hlen hvalid a
      (mem_of_getElem?_eq_some ha)
    obtain ⟨pb, mb, hpb, hmb⟩ := mesh_material_valid S hS meshType scene hlen hvalid b
      (mem_of_getElem?_eq_some hb)
    refine ⟨ma, mb, ?_, ?_, ?_⟩
    · rw [hpa, getAt_natCast]; exact hma
    · rw [hpb, getAt_natCast]; exact hmb
    · rw [hpa, hpb] at hab
      have hle : pa ≤ pb := by exact_mod_cast hab
      rcases Nat.lt_or_eq_of_le hle with hlt | heq
      · exact pairwise_getElem? (materials_pairwise S hS meshType scene) hlt hma hmb
      · subst heq
        rw [hma] at hmb
        cases hmb
        exact le_refl _
  · intro i j k a b c hij hjk ha hb hc hac
    have h1 : a.material ≤ b.material := pairwise_getElem? hpw hij ha hb
    have h2 : b.material ≤ c.material := pairwise_getElem? hpw hjk hb hc
    omega

/-- Claim C4, on the scenario of the spec with straight insertion as the sort. -/
theorem sortMeshes_meshes_ascending_witness :
    insertionStdSort.Lawful ∧ scenario.materials_.length ≤ 2147483648 ∧
    (∀ mesh ∈ scenario.meshes,
      0 ≤ mesh.material ∧ mesh.material < (scenario.materials_.length : Int)) ∧
    ((∀ (i j : Nat) (a b : Mesh), i < j →
      (sortMeshes_ insertionStdSort 1 scenario).meshes[i]? = some a →
      (sortMeshes_ insertionStdSort 1 scenario).meshes[j]? = some b →
      a.material ≤ b.material ∧
      ∃ ma mb : Material,
        getAt (sortMeshes_ insertionStdSort 1 scenario).materials_ a.material = some ma ∧
        getAt (sortMeshes_ insertionStdSort 1 scenario).materials_ b.material = some mb ∧
        ma.shader_id ≤ mb.shader_id) ∧
    (∀ (i j k : Nat) (a b c : Mesh), i < j → j < k →
      (sortMeshes_ insertionStdSort 1 scenario).meshes[i]? = some a →
      (sortMeshes_ insertionStdSort 1 scenario).meshes[j]? = some b →
      (sortMeshes_ insertionStdSort 1 scenario).meshes[k]? = some c →
      a.material = c.material → b.material = a.material)) :=
  ⟨insertionStdSort_lawful, by decide, by decide,
    sortMeshes_meshes_ascending insertionStdSort insertionStdSort_lawful 1 scenario
      (by decide) (by decide)⟩

/-- The old-index to new-index map of the draw-item pass. -/
theorem mesh_oldNew (S : StdSort) (hS : S.Lawful) (meshType : Nat) (scene : Scene)
    (hlen : scene.meshes.length ≤ 2147483648) (k : Nat) (mesh : Mesh)
    (hk : scene.meshes[k]? = some mesh) :
    ∃ q : Nat,
      (fillMap Mesh.index 0 [] (sortMeshes_ S meshType scene).meshes).lookup (k : Int)
        = some (q : Int) ∧
      (sortMeshes_ S meshType scene).meshes[q]? =
        some (Mesh.setIndex (Mesh.setMaterial mesh
          (((fillMap Material.index 0 []
            (sortMeshes_ S meshType scene).materials_).lookup mesh.material).getD 0)) (k : Int)) := by
  obtain ⟨hklt, hkeq⟩ := List.getElem?_eq_some.mp hk
  have hperm := (hS _ (strictWeakOrder_key Mesh.material)
    (storeIndex Mesh.setIndex 0
      (scene.meshes.map (fun x => Mesh.setMaterial x
        (((fillMap Material.index 0 []
          (sortMeshes_ S meshType scene).materials_).lookup x.material).getD 0))))).1
  rw [← meshes_sortMeshes_] at hperm
  have hspec := (oldNew_spec Mesh.index Mesh.setIndex (fun _ _ => rfl) _ _ hperm
    (by simpa using hlen)).1 k (by simpa using hklt)
  obtain ⟨q, -, hlook, hq⟩ := hspec
  refine ⟨q, hlook, ?_⟩
  rw [hq, List.getElem_map, hkeq]

/-- Claim C5: `sortMeshes_` preserves what each entity draws. For an entity whose draw-item
index is a position of the draw-item table, with that draw item's material index a position
of the material table, the entity's draw-item index after the sort leads to a draw item
with the same geometry index and owner, whose material index leads to a material with the
same shader id and shading parameters as before the sort. -/
theorem sortMeshes_preserves_entity_content (S : StdSort) (hS : S.Lawful) (meshType : Nat)
    (scene : Scene) (hm : scene.materials_.length ≤ 2147483648)
    (hd : scene.meshes.length ≤ 2147483648)
    (e : Nat) (ent : Entity) (mesh : Mesh) (mat : Material)
    (hent : scene.entities[e]? = some ent)
    (hmesh : getAt scene.meshes (ent.components meshType) = some mesh)
    (hmat : getAt scene.materials_ mesh.material = some mat) :
    ∃ (ent' : Entity) (mesh' : Mesh) (mat' : Material),
      (sortMeshes_ S meshType scene).entities[e]? = some ent' ∧
      getAt (sortMeshes_ S meshType scene).meshes (ent'.components meshType) = some mesh' ∧
      mesh'.geometry = mesh.geometry ∧ mesh'.owner = mesh.owner ∧
      getAt (sortMeshes_ S meshType scene).materials_ mesh'.material = some mat' ∧
      mat'.shader_id = mat.shader_id ∧ Material.params mat' = Material.params mat := by
  obtain ⟨k, hk, -, hmk⟩ := getAt_eq_some hmesh
  obtain ⟨i, hi, hilt, hmi⟩ := getAt_eq_some hmat
  obtain ⟨q, hlookq, hq⟩ := mesh_oldNew S hS meshType scene hd k mesh hmk
  obtain ⟨p, -, hlookp, hp⟩ := (material_oldNew S hS meshType scene hm).1 i hilt
  have hmati : scene.materials_[i] = mat := by
    obtain ⟨_, h⟩ := List.getElem?_eq_some.mp hmi
    exact h
  rw [hi, hlookp] at hq
  rw [hmati] at hp
  refine ⟨Entity.setMeshSlot meshType ent (q : Int),
    Mesh.setIndex (Mesh.setMaterial mesh (p : Int)) (k : Int),
    Material.setIndex mat (i : Int), ?_, ?_, rfl, rfl, ?_, rfl, rfl⟩
  · rw [entities_sortMeshes_, List.getElem?_map, hent]
    simp only [Option.map_some', Entity.meshSlot]
    rw [hk, hlookq]
    rfl
  · simp only [Entity.setMeshSlot, Function.update_same, getAt_natCast]
    exact hq
  · simp only [Mesh.setIndex, Mesh.setMaterial, getAt_natCast]
    exact hp

/-- Claim C5, on the scenario of the spec with straight insertion as the sort: the entity
`e0` draws geometry 10 with the shader-5 material `a` before and after the sort. -/
theorem sortMeshes_preserves_entity_content_witness :
    insertionStdSort.Lawful ∧ scenario.entities[0]? = some (mkEntity 1 "e0" 0) ∧
    getAt scenario.meshes ((mkEntity 1 "e0" 0).components 1) = some ⟨0, -1, 10, 0⟩ ∧
    getAt scenario.materials_ (0 : Int) = some (mkMaterial "a" 5) ∧
    ∃ (ent' : Entity) (mesh' : Mesh) (mat' : Material),
      (sortMeshes_ insertionStdSort 1 scenario).entities[0]? = some ent' ∧
      getAt (sortMeshes_ insertionStdSort 1 scenario).meshes (ent'.components 1) = some mesh' ∧
      mesh'.geometry = 10 ∧ mesh'.owner = 0 ∧
      getAt (sortMeshes_ insertionStdSort 1 scenario).materials_ mesh'.material = some mat' ∧
      mat'.shader_id = 5 ∧ Material.params mat' = Material.params (mkMaterial "a" 5) :=
  ⟨insertionStdSort_lawful, rfl, rfl, rfl,
    sortMeshes_preserves_entity_content insertionStdSort insertionStdSort_lawful 1 scenario
      (by decide) (by decide) 0 (mkEntity 1 "e0" 0) ⟨0, -1, 10, 0⟩ (mkMaterial "a" 5)
      rfl rfl rfl⟩

/-- Claim C7, refuted as stated: on a scene whose draw item refers to the missing material
7, `sortMeshes_` runs to completion and the draw item comes out with the material index 0. -/
theorem sortMeshes_dangling_material_example :
    getAt danglingScene.materials_ (7 : Int) = none ∧
    danglingScene.meshes.map Mesh.material = [7] ∧
    (sortMeshes_ insertionStdSort 1 danglingScene).meshes.map Mesh.material = [0] :=
  ⟨by decide, by decide, by decide⟩

/-- Claim C7, amended: `sortMeshes_` has no failure path. A draw item whose material index
is not a position of the material table is kept, with its geometry and owner, and its
material index is rewritten to 0, the value `std::map::operator[]` yields for a missing
key. -/
theorem sortMeshes_dangling_material (S : StdSort) (hS : S.Lawful) (meshType : Nat)
    (scene : Scene) (hm : scene.materials_.length ≤ 2147483648)
    (hd : scene.meshes.length ≤ 2147483648) (k : Nat) (mesh : Mesh)
    (hk : scene.meshes[k]? = some mesh)
    (hbad : mesh.material < 0 ∨ (scene.materials_.length : Int) ≤ mesh.material) :
    ∃ (q : Nat) (mesh' : Mesh), (sortMeshes_ S meshType scene).meshes[q]? = some mesh' ∧
      mesh'.index = (k : Int) ∧ mesh'.geometry = mesh.geometry ∧ mesh'.owner = mesh.owner ∧
      mesh'.material = 0 := by
  obtain ⟨q, -, hq⟩ := mesh_oldNew S hS meshType scene hd k mesh hk
  rw [(material_oldNew S hS meshType scene hm).2 mesh.material hbad] at hq
  exact ⟨q, _, hq, rfl, rfl, rfl, rfl⟩

/-- Claim C7 as amended, on the scene with the dangling material index. -/
theorem sortMeshes_dangling_material_witness :
    insertionStdSort.Lawful ∧ danglingScene.meshes[0]? = some ⟨0, -1, 0, 7⟩ ∧
    ∃ (q : Nat) (mesh' : Mesh),
      (sortMeshes_ insertionStdSort 1 danglingScene).meshes[q]? = some mesh' ∧
      mesh'.index = ((0 : Nat) : Int) ∧ mesh'.geometry = 0 ∧ mesh'.owner = 0 ∧
      mesh'.material = 0 :=
  ⟨insertionStdSort_lawful, rfl,
    sortMeshes_dangling_material insertionStdSort insertionStdSort_lawful 1 danglingScene
      (by decide) (by decide) 0 ⟨0, -1, 0, 7⟩ rfl (Or.inr (by decide))⟩

/-- Claim C8, violated by the code: on the scene of `Game::init` the camera entity and the
three light entities have no draw item before `sortMeshes_`, and afterwards their Mesh slot
holds 0, the index of a draw item. -/
theorem sortMeshes_overwrites_empty_slot :
    gameScene.entities.map (Entity.meshSlot 1) = [noComponent, 0, 1, noComponent, noComponent,
      noComponent] ∧
    (sortMeshes_ insertionStdSort 1 gameScene).entities.map (Entity.meshSlot 1)
      = [0, 0, 1, 0, 0, 0] ∧
    (sortMeshes_ reversingStdSort 1 gameScene).entities.map (Entity.meshSlot 1)
      = [0, 0, 1, 0, 0, 0] :=
  ⟨by decide, by decide, by decide⟩

/-! ## AABB transformation -/

/-- Claim C10, violated by the code: under the affine map `(x, y, z) ↦ (x - y, x + y, z)`
the box returned for `unitBox` spans only `x = 0`, while the transformed corner
`(1, -1, -1)` of the input box has `x = 2`: a transformed corner lies outside the returned
box. -/
theorem transformAABB_misses_corner :
    (⟨1, -1, -1⟩ : lm.vec3) ∈ corners unitBox ∧
    transformAABB_ unitBox rotScale45 = ⟨⟨0, 0, 0⟩, ⟨0, 2, 1⟩⟩ ∧
    (rotScale45.mulVec3 ⟨1, -1, -1⟩).x = 2 ∧
    (transformAABB_ unitBox rotScale45).center.x + (transformAABB_ unitBox rotScale45).half_width.x
      < (rotScale45.mulVec3 ⟨1, -1, -1⟩).x := by
  refine ⟨?_, ?_, ?_, ?_⟩
  · norm_num [corners, points, unitBox]
  · norm_num [transformAABB_, unitBox, rotScale45, lm.mat4.mulVec3, minMaxStep,
      aabbOfMinMax, big, small]
  · norm_num [rotScale45, lm.mat4.mulVec3]
  · norm_num [transformAABB_, unitBox, rotScale45, lm.mat4.mulVec3, minMaxStep,
      aabbOfMinMax, big, small]

/-! ## Geometry bounding boxes -/

/-- Claim C12, violated by the code: for the three-character file name `obj` the call does
not return the invalid handle `-1`. `filename.size() - 4` wraps around to
`18446744073709551615`, and `substr` throws `std::out_of_range`, whatever the parser and
the geometry store are. -/
theorem createGeometryFromFile_short_name (parseOBJ : String → Option MeshData)
    (newGeometry : MeshData → Geometry) (store : GeometryStore) :
    sizeSub ("obj" : String).length 4 = 18446744073709551615 ∧
    createGeometryFromFile parseOBJ newGeometry store "obj" = .error .out_of_range := by
  have hlen : ("obj" : String).length = 3 := rfl
  have hsub : sizeSub 3 4 = 18446744073709551615 := by
    unfold sizeSub
    norm_num
  refine ⟨by rw [hlen, hsub], ?_⟩
  unfold createGeometryFromFile substr
  rw [hlen, hsub]
  have hgt : 18446744073709551615 > 3 := by norm_num
  rw [if_pos hgt]

/-- For a name of at least 4 characters the extension is the last four characters. -/
theorem substr_last4 (filename : String) (h4 : 4 ≤ filename.length) :
    substr filename (sizeSub filename.length 4) 4
      = .ok ⟨filename.data.drop (filename.length - 4)⟩ := by
  have hsub : sizeSub filename.length 4 = filename.length - 4 := by
    unfold sizeSub
    rw [if_pos h4]
  have htake : (filename.data.drop (filename.length - 4)).take 4
      = filename.data.drop (filename.length - 4) := by
    apply List.take_of_length_le
    rw [List.length_drop]
    have : filename.data.length = filename.length := rfl
    omega
  have hngt : ¬ filename.length - 4 > filename.length := by omega
  unfold substr
  rw [hsub, if_neg hngt, htake]

/-- For a file name of at least 4 characters the call of `createGeometryFromFile`
returns. It returns `-1` and leaves the geometry store as it is when the last four
characters are neither `.obj` nor `.OBJ` or when the parser rejects the file, and otherwise
it appends the new geometry and returns the previous size of the store. -/
theorem createGeometryFromFile_long_name (parseOBJ : String → Option MeshData)
    (newGeometry : MeshData → Geometry) (store : GeometryStore) (filename : String)
    (h4 : 4 ≤ filename.length) (hlen : store.geometries_.length < 2147483647) :
    ∃ r : Int × GeometryStore,
      createGeometryFromFile parseOBJ newGeometry store filename = .ok r ∧
      ((r.1 = -1 ∧ r.2.geometries_ = store.geometries_) ∨
        (r.1 = (store.geometries_.length : Int) ∧
          ∃ data, parseOBJ filename = some data ∧
            r.2.geometries_ = store.geometries_ ++ [newGeometry data])) ∧
      (parseOBJ filename = none → r.1 = -1) ∧
      ((⟨filename.data.drop (filename.length - 4)⟩ : String) ≠ ".obj" →
        (⟨filename.data.drop (filename.length - 4)⟩ : String) ≠ ".OBJ" → r.1 = -1) := by
  unfold createGeometryFromFile
  rw [substr_last4 filename h4]
  simp only []
  split_ifs with hext
  · cases hp : parseOBJ filename with
    | none =>
      refine ⟨_, rfl, Or.inl ⟨rfl, rfl⟩, fun _ => rfl, ?_⟩
      intro h1 h2
      rcases hext with h | h
      · exact absurd h h1
      · exact absurd h h2
    | some data =>
      refine ⟨_, rfl, Or.inr ⟨?_, data, rfl, rfl⟩, fun h => absurd h (by simp), ?_⟩
      · simp only [List.length_append, List.length_singleton]
        rw [castInt_of_lt (by omega)]
        push_cast
        ring
      · intro h1 h2
        rcases hext with h | h
        · exact absurd h h1
        · exact absurd h h2
  · exact ⟨_, rfl, Or.inl ⟨rfl, rfl⟩, fun _ => rfl, fun _ _ => rfl⟩

/-! ## The frame -/

/-- Claim C13: when the scene has zero cameras, `Game::update` ends at once. It prints
`There is no camera set!` and leaves everything else as it is, whatever the collaborators
are: no system is updated, no camera matrix is computed, no call reaches OpenGL, and
`ECS.main_camera` is not used. -/
theorem gameUpdate_no_camera (ext : Collaborators) (w : World) (h : w.cameras = []) :
    gameUpdate ext w = .done { w with out := w.out ++ ["There is no camera set!"] } := by
  unfold gameUpdate
  rw [h]
  rfl

/-- Claim C13, on a world with a draw item and no camera. -/
theorem gameUpdate_no_camera_witness :
    noCameraWorld.cameras = [] ∧ noCameraWorld.meshes ≠ [] ∧
    gameUpdate idleCollaborators noCameraWorld
      = .done { noCameraWorld with out := noCameraWorld.out ++ ["There is no camera set!"] } :=
  ⟨rfl, by decide, gameUpdate_no_camera idleCollaborators noCameraWorld rfl⟩

/-- Claim C14, refuted as stated: with shader 3, texture 7 and the geometry index 5, which
is not a position of the one-element geometry store, `renderEnvironment_` is not a no-op.
It binds program 3, switches depth writes off and culls front faces before it reaches
`geometries_[5]`. -/
theorem renderEnvironment_geometry_out_of_range :
    getAt smallWorld.geometries_ (5 : Int) = none ∧
    smallWorld.gl_program = 0 ∧ smallWorld.gl_depthMask = true ∧
    smallWorld.gl_cullFace = .back ∧
    ∃ w : World, renderEnvironment_ (setEnvironment smallWorld 7 5 3) = .undefined w ∧
      w.gl_program = 3 ∧ w.gl_depthMask = false ∧ w.gl_cullFace = .front :=
  ⟨rfl, rfl, rfl, rfl, _, rfl, rfl, rfl, rfl⟩

/-- Claim C14, amended: after `setEnvironment(texture, geometry, program)`,
`renderEnvironment_` is a no-op whenever the shader handle is 0, the texture handle is 0 or
the geometry index is negative: it ends with the state unchanged, so the bound shader, the
depth-write and face-culling state are as before and no call reaches OpenGL. -/
theorem renderEnvironment_noop (w : World) (tex_id : Nat) (geom_id : Int) (program : Nat)
    (h : program = 0 ∨ tex_id = 0 ∨ geom_id < 0) :
    renderEnvironment_ (setEnvironment w tex_id geom_id program)
      = .done (setEnvironment w tex_id geom_id program) := by
  unfold renderEnvironment_
  exact if_pos h

/-- Claim C14 as amended, on a valid cube map and geometry with the shader handle 0. -/
theorem renderEnvironment_noop_witness :
    ((0 : Nat) = 0 ∨ (7 : Nat) = 0 ∨ (0 : Int) < 0) ∧
    renderEnvironment_ (setEnvironment smallWorld 7 0 0)
      = .done (setEnvironment smallWorld 7 0 0) :=
  ⟨Or.inl rfl, renderEnvironment_noop smallWorld 7 0 0 (Or.inl rfl)⟩

/-! ## Sorting twice -/

theorem setMaterial_self (x : Mesh) : Mesh.setMaterial x x.material = x := rfl

theorem mem_changes (l : List Int) : ∀ (prev : Option Int) (m : Int),
    m ∈ changes prev l → m ∈ l := by
  induction l with
  | nil => intro prev m h; simp [changes] at h
  | cons x xs ih =>
    intro prev m h
    simp only [changes, List.mem_append] at h
    rcases h with h | h
    · split_ifs at h
      · simp at h
      · simp only [List.mem_singleton] at h
        exact h ▸ List.mem_cons_self _ _
    · exact List.mem_cons_of_mem _ (ih _ _ h)

/-- In a non-decreasing sequence every value starts exactly one run: it occurs once among
the changes, unless it is the value that preceded the sequence. -/
theorem count_changes (l : List Int) (hs : l.Pairwise (fun a b => a ≤ b)) :
    ∀ prev : Option Int, (∀ c, prev = some c → ∀ x ∈ l, c ≤ x) →
      ∀ m : Int, (changes prev l).count m = if m ∈ l ∧ prev ≠ some m then 1 else 0 := by
  induction l with
  | nil => intro prev _ m; simp [changes]
  | cons x xs ih =>
    intro prev hprev m
    rw [List.pairwise_cons] at hs
    have hih := ih hs.2 (some x) (fun c hc y hy => by cases hc; exact hs.1 y hy) m
    simp only [changes, List.count_append, hih]
    by_cases hmx : m = x
    · subst hmx
      by_cases hp : prev = some m
      · simp [hp]
      · simp [hp]
    · have hne : ¬ (some x = some m) := fun h => hmx (Option.some.inj h).symm
      have hfirst : (if prev = some x then ([] : List Int) else [x]).count m = 0 := by
        split_ifs
        · rfl
        · exact List.count_eq_zero.mpr (by simpa using hmx)
      rw [hfirst, Nat.zero_add]
      by_cases hmem : m ∈ xs
      · have hpm : prev ≠ some m := by
          intro hp
          have h1 := hprev m hp x (List.mem_cons_self _ _)
          have h2 := hs.1 m hmem
          exact hmx (le_antisymm h1 h2)
        simp [hmem, hne, hpm, hmx]
      · simp [hmem, hne, hmx]

theorem count_materialUniforms_bindCalls (items : List (Int × Int)) :
    ∀ (prevShader : Option Int) (prevMaterial m : Int),
      (bindCalls prevShader prevMaterial items).count (GLCall.materialUniforms m)
        = (changes (some prevMaterial) (items.map Prod.snd)).count m := by
  induction items with
  | nil => intro _ _ _; rfl
  | cons it rest ih =>
    intro prevShader prevMaterial m
    obtain ⟨s, k⟩ := it
    simp only [bindCalls, changes, List.map_cons, List.count_append, ih]
    have h1 : (if prevShader = some s then ([] : List GLCall)
        else [GLCall.useProgram (toGLuint s)]).count (GLCall.materialUniforms m) = 0 := by
      split_ifs
      · rfl
      · exact List.count_eq_zero.mpr (by simp)
    have h2 : (if prevMaterial = k then ([] : List GLCall)
        else [GLCall.materialUniforms k]).count (GLCall.materialUniforms m)
        = (if some prevMaterial = some k then ([] : List Int) else [k]).count m := by
      by_cases hk : prevMaterial = k
      · simp [hk]
      · have : ¬ (some prevMaterial = some k) := fun h => hk (Option.some.inj h)
        rw [if_neg hk, if_neg this]
        by_cases hkm : k = m
        · subst hkm; simp
        · rw [List.count_eq_zero.mpr (by simpa using fun h => hkm h.symm),
            List.count_eq_zero.mpr (by simpa using fun h => hkm h.symm)]
    rw [h1, h2, Nat.zero_add]

theorem count_useProgram_bindCalls (items : List (Int × Int)) :
    ∀ (prevShader : Option Int) (prevMaterial : Int) (p : Nat),
      (bindCalls prevShader prevMaterial items).count (GLCall.useProgram p)
        = (changes prevShader (items.map Prod.fst)).countP (fun s => toGLuint s = p) := by
  induction items with
  | nil => intro _ _ _; rfl
  | cons it rest ih =>
    intro prevShader prevMaterial p
    obtain ⟨s, k⟩ := it
    simp only [bindCalls, changes, List.map_cons, List.count_append, List.countP_append, ih]
    have h2 : (if prevMaterial = k then ([] : List GLCall)
        else [GLCall.materialUniforms k]).count (GLCall.useProgram p) = 0 := by
      split_ifs
      · rfl
      · exact List.count_eq_zero.mpr (by simp)
    have h1 : (if prevShader = some s then ([] : List GLCall)
        else [GLCall.useProgram (toGLuint s)]).count (GLCall.useProgram p)
        = (if prevShader = some s then ([] : List Int) else [s]).countP
            (fun s => toGLuint s = p) := by
      by_cases hs : prevShader = some s
      · simp [hs]
      · rw [if_neg hs, if_neg hs]
        by_cases hsp : toGLuint s = p
        · subst hsp; simp
        · rw [List.count_eq_zero.mpr (by simpa using fun h => hsp h.symm)]
          simp [hsp]
    rw [h1, h2, Nat.add_zero]

/-- The conversion to `GLuint` is one-to-one on the values an `int` can hold. -/
theorem toGLuint_inj {a b : Int} (ha : -2147483648 ≤ a ∧ a < 2147483648)
    (hb : -2147483648 ≤ b ∧ b < 2147483648) (h : toGLuint a = toGLuint b) : a = b := by
  unfold toGLuint at h
  have h1 : 0 ≤ a % 4294967296 := Int.emod_nonneg _ (by norm_num)
  have h2 : 0 ≤ b % 4294967296 := Int.emod_nonneg _ (by norm_num)
  have h3 : a % 4294967296 = b % 4294967296 := by
    have := congrArg (fun n : Nat => (n : Int)) h
    simp only [Int.toNat_of_nonneg h1, Int.toNat_of_nonneg h2] at this
    exact this
  omega

theorem toGLuint_ne_zero {a : Int} (ha : -2147483648 ≤ a ∧ a < 2147483648) (h0 : a ≠ 0) :
    toGLuint a ≠ 0 := by
  intro h
  have : toGLuint a = toGLuint 0 := by rw [h]; rfl
  exact h0 (toGLuint_inj ha (by norm_num) this)

theorem mem_bindCalls (items : List (Int × Int)) :
    ∀ (prevShader : Option Int) (prevMaterial : Int) (c : GLCall),
      c ∈ bindCalls prevShader prevMaterial items →
      ∃ it ∈ items, c = GLCall.useProgram (toGLuint it.1) ∨ c = GLCall.materialUniforms it.2 := by
  induction items with
  | nil => intro _ _ c h; simp [bindCalls] at h
  | cons it rest ih =>
    intro prevShader prevMaterial c h
    obtain ⟨s, k⟩ := it
    simp only [bindCalls, List.mem_append] at h
    rcases h with (h | h) | h
    · split_ifs at h
      · simp at h
      · simp only [List.mem_singleton] at h
        exact ⟨(s, k), List.mem_cons_self _ _, Or.inl h⟩
    · split_ifs at h
      · simp at h
      · simp only [List.mem_singleton] at h
        exact ⟨(s, k), List.mem_cons_self _ _, Or.inr h⟩
    · obtain ⟨it, hit, hc⟩ := ih _ _ c h
      exact ⟨it, List.mem_cons_of_mem _ hit, hc⟩

/-- The shader half of `checkShaderAndMaterial`: the program is bound when it differs from
the one in use, and afterwards the shader in use is the registered one. -/
theorem shader_step (w : World) (s : Int) (prevShader : Option Int)
    (hr : -2147483648 ≤ s ∧ s < 2147483648) (hnz : s ≠ 0)
    (hreg : ∃ sh : Shader, w.shaders_.lookup (toGLuint s) = some (some sh) ∧
      sh.program = toGLuint s)
    (hprev : (prevShader = none ∧ w.shader_ = none) ∨
      ∃ s0 : Int, prevShader = some s0 ∧ (-2147483648 ≤ s0 ∧ s0 < 2147483648) ∧
        ∃ sh : Shader, w.shader_ = some sh ∧ sh.program = toGLuint s0) :
    ∃ w1 : World,
      (if needsShader w.shader_ (toGLuint s) then useShader w (toGLuint s) else w) = w1 ∧
      w1.calls = w.calls ++
        (if prevShader = some s then [] else [GLCall.useProgram (toGLuint s)]) ∧
      w1.materials_ = w.materials_ ∧ w1.shaders_ = w.shaders_ ∧
      w1.current_material_ = w.current_material_ ∧
      ∃ sh : Shader, w1.shader_ = some sh ∧ sh.program = toGLuint s := by
  obtain ⟨sh, hlook, hprog⟩ := hreg
  have hp : toGLuint s ≠ 0 := toGLuint_ne_zero hr hnz
  have hbind : needsShader w.shader_ (toGLuint s) = true →
      ∃ w1 : World, useShader w (toGLuint s) = w1 ∧
        w1.calls = w.calls ++ [GLCall.useProgram (toGLuint s)] ∧
        w1.materials_ = w.materials_ ∧ w1.shaders_ = w.shaders_ ∧
        w1.current_material_ = w.current_material_ ∧
        ∃ sh : Shader, w1.shader_ = some sh ∧ sh.program = toGLuint s := by
    intro hneed
    refine ⟨_, rfl, ?_, ?_, ?_, ?_, sh, ?_, hprog⟩ <;>
      simp [useShader, hp, hneed, glCall, shaderSubscript, hlook]
  rcases hprev with ⟨hnone, hsh⟩ | ⟨s0, hsome, hr0, sh0, hsh, hprog0⟩
  · have hneed : needsShader w.shader_ (toGLuint s) = true := by
      rw [hsh]; rfl
    obtain ⟨w1, h1, h2, h3, h4, h5, h6⟩ := hbind hneed
    refine ⟨w1, by rw [if_pos hneed, h1], ?_, h3, h4, h5, h6⟩
    rw [h2, hnone, if_neg (by simp)]
  · by_cases hs : s0 = s
    · subst hs
      have hneed : needsShader w.shader_ (toGLuint s0) = false := by
        rw [hsh]
        simp [needsShader, hprog0]
      refine ⟨w, by rw [hneed]; rfl, ?_, rfl, rfl, rfl, sh0, hsh, hprog0⟩
      rw [hsome, if_pos rfl, List.append_nil]
    · have hne : sh0.program ≠ toGLuint s := by
        rw [hprog0]
        exact fun h => hs (toGLuint_inj hr0 hr h)
      have hneed : needsShader w.shader_ (toGLuint s) = true := by
        rw [hsh]
        simp [needsShader, hne]
      obtain ⟨w1, h1, h2, h3, h4, h5, h6⟩ := hbind hneed
      refine ⟨w1, by rw [if_pos hneed, h1], ?_, h3, h4, h5, h6⟩
      rw [h2, hsome, if_neg (fun h => hs (Option.some.inj h))]

/-- One run of `checkShaderAndMaterial` on a draw item with a valid material whose shader
is registered: it ends, and the calls it makes are those of `bindCalls`. -/
theorem checkShaderAndMaterial_step (w : World) (mesh : Mesh) (mat : Material)
    (prevShader : Option Int)
    (hmat : getAt w.materials_ mesh.material = some mat)
    (hr : -2147483648 ≤ mat.shader_id ∧ mat.shader_id < 2147483648)
    (hnz : mat.shader_id ≠ 0)
    (hreg : ∃ sh : Shader, w.shaders_.lookup (toGLuint mat.shader_id) = some (some sh) ∧
      sh.program = toGLuint mat.shader_id)
    (hprev : (prevShader = none ∧ w.shader_ = none) ∨
      ∃ s0 : Int, prevShader = some s0 ∧ (-2147483648 ≤ s0 ∧ s0 < 2147483648) ∧
        ∃ sh : Shader, w.shader_ = some sh ∧ sh.program = toGLuint s0) :
    ∃ w' : World, checkShaderAndMaterial w mesh = .done w' ∧
      w'.calls = w.calls ++
        bindCalls prevShader w.current_material_ [(mat.shader_id, mesh.material)] ∧
      w'.materials_ = w.materials_ ∧ w'.shaders_ = w.shaders_ ∧
      w'.current_material_ = mesh.material ∧
      ∃ sh : Shader, w'.shader_ = some sh ∧ sh.program = toGLuint mat.shader_id := by
  obtain ⟨w1, hw1, hcalls, hmats, hshaders, hcur, sh, hsh, hprog⟩ :=
    shader_step w mat.shader_id prevShader hr hnz hreg hprev
  unfold checkShaderAndMaterial
  rw [hmat]
  simp only []
  rw [hw1]
  by_cases hk : w.current_material_ = mesh.material
  · refine ⟨w1, ?_, ?_, hmats, hshaders, by rw [hcur, hk], sh, hsh, hprog⟩
    · rw [if_neg (by rw [hcur]; exact fun h => h hk)]
    · rw [hcalls]
      simp [bindCalls, hk]
  · have hk1 : w1.current_material_ ≠ mesh.material := by rw [hcur]; exact hk
    rw [if_pos hk1]
    refine ⟨glCall { w1 with current_material_ := mesh.material }
      (.materialUniforms mesh.material), ?_, ?_, ?_, ?_, ?_, sh, ?_, hprog⟩
    · simp [setMaterialUniforms, hmats, hmat, hsh]
    · simp [glCall, hcalls, bindCalls, hk]
    · simp [glCall, hmats]
    · simp [glCall, hshaders]
    · simp [glCall]
    · simp [glCall, hsh]

theorem mem_of_getAt {α : Type} {v : List α} {k : Int} {a : α} (h : getAt v k = some a) :
    a ∈ v := by
  obtain ⟨i, -, -, hi⟩ := getAt_eq_some h
  exact mem_of_getElem?_eq_some hi

theorem shaderOf_eq {materials_ : List Material} {mesh : Mesh} {mat : Material}
    (h : getAt materials_ mesh.material = some mat) :
    shaderOf materials_ mesh = mat.shader_id := by
  simp [shaderOf, h]

theorem bindCalls_cons (prevShader : Option Int) (prevMaterial : Int) (it : Int × Int)
    (rest : List (Int × Int)) :
    bindCalls prevShader prevMaterial (it :: rest)
      = bindCalls prevShader prevMaterial [it] ++ bindCalls (some it.1) it.2 rest := by
  obtain ⟨s, k⟩ := it
  simp [bindCalls]

/-- The loop over the draw items: when every draw item has a valid material and every
material's shader is non-zero and registered, the pass ends and makes the calls of
`bindCalls`. -/
theorem bindingFold (mats : List Material) (shaders : List (Nat × Option Shader))
    (hmats : ∀ m ∈ mats, (-2147483648 ≤ m.shader_id ∧ m.shader_id < 2147483648) ∧
      m.shader_id ≠ 0 ∧
      ∃ sh : Shader, shaders.lookup (toGLuint m.shader_id) = some (some sh) ∧
        sh.program = toGLuint m.shader_id)
    (meshes : List Mesh) :
    ∀ (w : World) (prevShader : Option Int),
      w.materials_ = mats → w.shaders_ = shaders →
      (∀ mesh ∈ meshes, ∃ mat, getAt mats mesh.material = some mat) →
      ((prevShader = none ∧ w.shader_ = none) ∨
        ∃ s0 : Int, prevShader = some s0 ∧ (-2147483648 ≤ s0 ∧ s0 < 2147483648) ∧
          ∃ sh : Shader, w.shader_ = some sh ∧ sh.program = toGLuint s0) →
      ∃ w' : World,
        meshes.foldl (fun o mesh => andThen o fun w => checkShaderAndMaterial w mesh)
          (.done w) = .done w' ∧
        w'.calls = w.calls ++ bindCalls prevShader w.current_material_
          (meshes.map (fun mesh => (shaderOf mats mesh, mesh.material))) := by
  induction meshes with
  | nil =>
    intro w prevShader _ _ _ _
    exact ⟨w, rfl, by simp [bindCalls]⟩
  | cons mesh rest ih =>
    intro w prevShader hm hs hvalid hprev
    obtain ⟨mat, hmat⟩ := hvalid mesh (List.mem_cons_self _ _)
    obtain ⟨hr, hnz, hreg⟩ := hmats mat (mem_of_getAt hmat)
    obtain ⟨w1, hstep, hcalls, hm1, hs1, hcur, sh, hsh, hprog⟩ :=
      checkShaderAndMaterial_step w mesh mat prevShader (by rw [hm]; exact hmat) hr hnz
        (by rw [hs]; exact hreg) hprev
    obtain ⟨w', hfold, hcalls'⟩ := ih w1 (some mat.shader_id) (hm1.trans hm) (hs1.trans hs)
      (fun m hmem => hvalid m (List.mem_cons_of_mem _ hmem))
      (Or.inr ⟨mat.shader_id, rfl, hr, sh, hsh, hprog⟩)
    refine ⟨w', ?_, ?_⟩
    · simp only [List.foldl_cons, andThen, hstep]
      exact hfold
    · rw [hcalls', hcalls, hcur, List.map_cons, shaderOf_eq hmat, List.append_assoc]
      exact congrArg _ (bindCalls_cons prevShader w.current_material_
        (mat.shader_id, mesh.material) _).symm

/-- The state `resetShaderAndMaterial_` leaves: program 0 is bound, no shader and no
material are current. -/
theorem resetShaderAndMaterial_spec (w : World) :
    (resetShaderAndMaterial_ w).calls = w.calls ++ [GLCall.useProgram 0] ∧
    (resetShaderAndMaterial_ w).materials_ = w.materials_ ∧
    (resetShaderAndMaterial_ w).shaders_ = w.shaders_ ∧
    (resetShaderAndMaterial_ w).shader_ = none ∧
    (resetShaderAndMaterial_ w).current_material_ = -1 := by
  simp [resetShaderAndMaterial_, useShader, glCall]

/-- After the sort every draw item points at a position of the material table, as soon
as the table is not empty. -/
theorem mesh_material_in_range (S : StdSort) (hS : S.Lawful) (meshType : Nat) (scene : Scene)
    (hlen : scene.materials_.length ≤ 2147483648) (hne : scene.materials_ ≠ [])
    (a : Mesh) (ha : a ∈ (sortMeshes_ S meshType scene).meshes) :
    ∃ (p : Nat) (ma : Material), a.material = (p : Int) ∧
      (sortMeshes_ S meshType scene).materials_[p]? = some ma := by
  obtain ⟨x, -, -, -, hmat⟩ := mem_meshes_sortMeshes_ S hS meshType scene a ha
  have hpos : 0 < scene.materials_.length := List.length_pos.mpr hne
  have hspec := material_oldNew S hS meshType scene hlen
  by_cases hv : 0 ≤ x.material ∧ x.material < (scene.materials_.length : Int)
  · obtain ⟨i, hki⟩ := Int.eq_ofNat_of_zero_le hv.1
    have hi : i < scene.materials_.length := by omega
    obtain ⟨p, -, hlook, hp⟩ := hspec.1 i hi
    refine ⟨p, _, ?_, hp⟩
    rw [hmat, hki, hlook]
    rfl
  · have hbad : x.material < 0 ∨ (scene.materials_.length : Int) ≤ x.material := by omega
    obtain ⟨p, -, -, hp⟩ := hspec.1 0 hpos
    have hlen' : (sortMeshes_ S meshType scene).materials_.length = scene.materials_.length := by
      rw [(materials_perm S hS meshType scene).length_eq, length_storeIndex]
    have h0 : 0 < (sortMeshes_ S meshType scene).materials_.length := by omega
    refine ⟨0, _, ?_, List.getElem?_eq_getElem h0⟩
    rw [hmat, hspec.2 _ hbad]
    rfl

/-- Along the sorted draw-item table the shader ids asked for do not decrease. -/
theorem shaderOf_pairwise (S : StdSort) (hS : S.Lawful) (meshType : Nat) (scene : Scene)
    (hlen : scene.materials_.length ≤ 2147483648) (hne : scene.materials_ ≠ []) :
    ((sortMeshes_ S meshType scene).meshes.map
      (shaderOf (sortMeshes_ S meshType scene).materials_)).Pairwise (fun a b => a ≤ b) := by
  rw [List.pairwise_map]
  refine (meshes_pairwise S hS meshType scene).imp_of_mem ?_
  intro a b ha hb hab
  obtain ⟨pa, ma, hpa, hma⟩ := mesh_material_in_range S hS meshType scene hlen hne a ha
  obtain ⟨pb, mb, hpb, hmb⟩ := mesh_material_in_range S hS meshType scene hlen hne b hb
  have ea : shaderOf (sortMeshes_ S meshType scene).materials_ a = ma.shader_id :=
    shaderOf_eq (by rw [hpa, getAt_natCast]; exact hma)
  have eb : shaderOf (sortMeshes_ S meshType scene).materials_ b = mb.shader_id :=
    shaderOf_eq (by rw [hpb, getAt_natCast]; exact hmb)
  rw [ea, eb]
  rw [hpa, hpb] at hab
  have hle : pa ≤ pb := by exact_mod_cast hab
  rcases Nat.lt_or_eq_of_le hle with hlt | heq
  · exact pairwise_getElem? (materials_pairwise S hS meshType scene) hlt hma hmb
  · subst heq
    rw [hma] at hmb
    cases hmb
    exact le_refl _

/-- Claim C16: state changes are minimal on a sorted scene. After `sortMeshes_`, when every
material's shader id is non-zero and registered in the shader map under its own program id,
the pass `resetShaderAndMaterial_` followed by `checkShaderAndMaterial` on each draw item in
array order ends, and after the reset it binds the shader of every draw item exactly once,
uploads the uniforms of every material referenced exactly once, makes no other call, and
starts with a shader bind and a material upload for the first draw item. -/
theorem bindingPass_minimal (S : StdSort) (hS : S.Lawful) (meshType : Nat) (scene : Scene)
    (w : World) (hlen : scene.materials_.length ≤ 2147483648) (hne : scene.materials_ ≠ [])
    (hw : w.materials_ = (sortMeshes_ S meshType scene).materials_)
    (hmats : ∀ m ∈ w.materials_,
      (-2147483648 ≤ m.shader_id ∧ m.shader_id < 2147483648) ∧ m.shader_id ≠ 0 ∧
      ∃ sh : Shader, w.shaders_.lookup (toGLuint m.shader_id) = some (some sh) ∧
        sh.program = toGLuint m.shader_id) :
    ∃ (w' : World) (binds : List GLCall),
      bindingPass w (sortMeshes_ S meshType scene).meshes = .done w' ∧
      w'.calls = w.calls ++ [GLCall.useProgram 0] ++ binds ∧
      (∀ mesh ∈ (sortMeshes_ S meshType scene).meshes, ∃ mat : Material,
        getAt w.materials_ mesh.material = some mat ∧
        binds.count (GLCall.useProgram (toGLuint mat.shader_id)) = 1 ∧
        binds.count (GLCall.materialUniforms mesh.material) = 1) ∧
      (∀ c ∈ binds, ∃ mesh ∈ (sortMeshes_ S meshType scene).meshes,
        c = GLCall.useProgram (toGLuint (shaderOf w.materials_ mesh)) ∨
        c = GLCall.materialUniforms mesh.material) ∧
      (∀ (first : Mesh) (rest : List Mesh),
        (sortMeshes_ S meshType scene).meshes = first :: rest →
        ∃ tail : List GLCall,
          binds = GLCall.useProgram (toGLuint (shaderOf w.materials_ first)) ::
            GLCall.materialUniforms first.material :: tail) := by
  obtain ⟨r1, r2, r3, r4, r5⟩ := resetShaderAndMaterial_spec w
  have hrange : ∀ mesh ∈ (sortMeshes_ S meshType scene).meshes,
      ∃ (p : Nat) (mat : Material), mesh.material = (p : Int) ∧
        getAt w.materials_ mesh.material = some mat := by
    intro mesh hmesh
    obtain ⟨p, ma, hp, hma⟩ := mesh_material_in_range S hS meshType scene hlen hne mesh hmesh
    exact ⟨p, ma, hp, by rw [hw, hp, getAt_natCast]; exact hma⟩
  have hvalid : ∀ mesh ∈ (sortMeshes_ S meshType scene).meshes,
      ∃ mat, getAt w.materials_ mesh.material = some mat := by
    intro mesh hmesh
    obtain ⟨_, mat, _, hmat⟩ := hrange mesh hmesh
    exact ⟨mat, hmat⟩
  obtain ⟨w', hfold, hcalls⟩ := bindingFold w.materials_ w.shaders_ hmats
    (sortMeshes_ S meshType scene).meshes (resetShaderAndMaterial_ w) none r2 r3 hvalid
    (Or.inl ⟨rfl, r4⟩)
  rw [r1, r5] at hcalls
  have hfst : ((sortMeshes_ S meshType scene).meshes.map
      (fun mesh => (shaderOf w.materials_ mesh, mesh.material))).map Prod.fst
      = (sortMeshes_ S meshType scene).meshes.map (shaderOf w.materials_) := by
    simp [List.map_map, Function.comp_def]
  have hsnd : ((sortMeshes_ S meshType scene).meshes.map
      (fun mesh => (shaderOf w.materials_ mesh, mesh.material))).map Prod.snd
      = (sortMeshes_ S meshType scene).meshes.map Mesh.material := by
    simp [List.map_map, Function.comp_def]
  have hsortS : ((sortMeshes_ S meshType scene).meshes.map
      (shaderOf w.materials_)).Pairwise (fun a b => a ≤ b) := by
    rw [hw]
    exact shaderOf_pairwise S hS meshType scene hlen hne
  have hsortK : ((sortMeshes_ S meshType scene).meshes.map Mesh.material).Pairwise
      (fun a b => a ≤ b) :=
    List.pairwise_map.mpr (meshes_pairwise S hS meshType scene)
  refine ⟨w', _, hfold, hcalls, ?_, ?_, ?_⟩
  · intro mesh hmesh
    obtain ⟨p, mat, hp, hmat⟩ := hrange mesh hmesh
    refine ⟨mat, hmat, ?_, ?_⟩
    · rw [count_useProgram_bindCalls, hfst]
      have hcongr : ∀ x ∈ changes none
          ((sortMeshes_ S meshType scene).meshes.map (shaderOf w.materials_)),
          (decide (toGLuint x = toGLuint mat.shader_id) = true ↔ (x == mat.shader_id) = true) := by
        intro x hx
        obtain ⟨m', hm', hxm⟩ := List.mem_map.mp (mem_changes _ _ _ hx)
        obtain ⟨mat', hmat'⟩ := hvalid m' hm'
        rw [shaderOf_eq hmat'] at hxm
        have hr' := (hmats mat' (mem_of_getAt hmat')).1
        have hr := (hmats mat (mem_of_getAt hmat)).1
        rw [← hxm]
        simp only [decide_eq_true_eq, beq_iff_eq]
        exact ⟨fun h => toGLuint_inj hr' hr h, fun h => by rw [h]⟩
      rw [List.countP_congr hcongr, ← List.count_eq_countP,
        count_changes _ hsortS none (fun c hc => by cases hc)]
      have hmem : mat.shader_id ∈
          (sortMeshes_ S meshType scene).meshes.map (shaderOf w.materials_) :=
        List.mem_map.mpr ⟨mesh, hmesh, shaderOf_eq hmat⟩
      rw [if_pos ⟨hmem, by simp⟩]
    · rw [count_materialUniforms_bindCalls, hsnd,
        count_changes _ hsortK (some (-1)) (fun c hc x hx => by
          cases hc
          obtain ⟨m', hm', hxm⟩ := List.mem_map.mp hx
          obtain ⟨p', _, hp', _⟩ := hrange m' hm'
          omega)]
      have hmem : mesh.material ∈ (sortMeshes_ S meshType scene).meshes.map Mesh.material :=
        List.mem_map.mpr ⟨mesh, hmesh, rfl⟩
      have hneq : (some (-1) : Option Int) ≠ some mesh.material := by
        intro h
        have := Option.some.inj h
        omega
      rw [if_pos ⟨hmem, hneq⟩]
  · intro c hc
    obtain ⟨it, hit, hcit⟩ := mem_bindCalls _ _ _ c hc
    obtain ⟨mesh, hmesh, rfl⟩ := List.mem_map.mp hit
    exact ⟨mesh, hmesh, hcit⟩
  · intro first rest hfirst
    obtain ⟨p, _, hp, _⟩ := hrange first (by rw [hfirst]; exact List.mem_cons_self _ _)
    have hk : ¬ ((-1 : Int) = first.material) := by omega
    rw [hfirst]
    simp only [List.map_cons, bindCalls, if_neg hk]
    exact ⟨_, rfl⟩

theorem scenarioWorld_registered : ∀ m ∈ scenarioWorld.materials_,
    (-2147483648 ≤ m.shader_id ∧ m.shader_id < 2147483648) ∧ m.shader_id ≠ 0 ∧
    ∃ sh : Shader, scenarioWorld.shaders_.lookup (toGLuint m.shader_id) = some (some sh) ∧
      sh.program = toGLuint m.shader_id := by
  intro m hm
  have hids : scenarioWorld.materials_.map Material.shader_id = [2, 2, 5] := by decide
  have hmem : m.shader_id ∈ scenarioWorld.materials_.map Material.shader_id :=
    List.mem_map.mpr ⟨m, hm, rfl⟩
  rw [hids] at hmem
  simp only [List.mem_cons, List.mem_singleton, List.not_mem_nil, or_false] at hmem
  rcases hmem with h | h | h <;> rw [h]
  · exact ⟨by decide, by decide, ⟨2⟩, rfl, rfl⟩
  · exact ⟨by decide, by decide, ⟨2⟩, rfl, rfl⟩
  · exact ⟨by decide, by decide, ⟨5⟩, rfl, rfl⟩

/-- Claim C16, on the scenario of the spec (shaders 2, 2, 5 and draw items on the materials
0, 1, 2, 2 after the sort): after the reset the pass binds program 2, uploads materials 0
and 1, binds program 5 and uploads material 2. -/
theorem bindingPass_minimal_witness :
    insertionStdSort.Lawful ∧ scenario.materials_ ≠ [] ∧
    (∃ w' : World,
      bindingPass scenarioWorld (sortMeshes_ insertionStdSort 1 scenario).meshes = .done w' ∧
      w'.calls = [GLCall.useProgram 0, GLCall.useProgram 2, GLCall.materialUniforms 0,
        GLCall.materialUniforms 1, GLCall.useProgram 5, GLCall.materialUniforms 2]) ∧
    ∃ (w' : World) (binds : List GLCall),
      bindingPass scenarioWorld (sortMeshes_ insertionStdSort 1 scenario).meshes = .done w' ∧
      w'.calls = scenarioWorld.calls ++ [GLCall.useProgram 0] ++ binds ∧
      (∀ mesh ∈ (sortMeshes_ insertionStdSort 1 scenario).meshes, ∃ mat : Material,
        getAt scenarioWorld.materials_ mesh.material = some mat ∧
        binds.count (GLCall.useProgram (toGLuint mat.shader_id)) = 1 ∧
        binds.count (GLCall.materialUniforms mesh.material) = 1) ∧
      (∀ c ∈ binds, ∃ mesh ∈ (sortMeshes_ insertionStdSort 1 scenario).meshes,
        c = GLCall.useProgram (toGLuint (shaderOf scenarioWorld.materials_ mesh)) ∨
        c = GLCall.materialUniforms mesh.material) ∧
      (∀ (first : Mesh) (rest : List Mesh),
        (sortMeshes_ insertionStdSort 1 scenario).meshes = first :: rest →
        ∃ tail : List GLCall,
          binds = GLCall.useProgram (toGLuint (shaderOf scenarioWorld.materials_ first)) ::
            GLCall.materialUniforms first.material :: tail) :=
  ⟨insertionStdSort_lawful, by simp [scenario], ⟨_, rfl, rfl⟩,
    bindingPass_minimal insertionStdSort insertionStdSort_lawful 1 scenario scenarioWorld
      (by decide) (by simp [scenario]) rfl scenarioWorld_registered⟩

/-! ## Monotonicity of the culling test -/

end GraphicsSystem
